import Mathlib

/-! CLAMIR client: connection wrapper and device command contract.

The development follows the repository:

* `ClamirCpp/ClamirFunctions.cpp`: the globals `connection_result` and `lIPAddress`
  and the static methods `ConnectDevice` / `DisconnectDevice`, which call the
  imported `ConnectCLAMIR` / `DisconnectCLAMIR`;
* `ClamirCLR/ClamirCLR.cpp`: the managed wrapper that forwards to `ClamirFunctions`;
* `include/CLAMIR_dll.h`: the declarations and documented contract of the device
  library.  The library's implementation is not part of the sources, so the wrapper
  is embedded over an arbitrary implementation of the imports (`Device`), and the
  library's own behaviour is modelled separately from the specification (`Dll`):
  connection, parameter commands, image reads, the capture file layout and the
  mapping of status codes to error tags.
-/

namespace Clamir

/-! ## The imports of `CLAMIR_dll.h` used by the wrapper -/

/-- An implementation of the three connection entry points declared in
`CLAMIR_dll.h` (lines 39, 48, 56), as transitions over the library's own state `D`.
`ConnectCLAMIR` receives the address buffer. Each returns the C `int` status. -/
structure Device (D : Type) where
  ConnectCLAMIR : String → D → Int × D
  DisconnectCLAMIR : D → Int × D
  IsConnected : D → Int

/-- A request made to the device library, recorded in call order. -/
inductive DeviceCall where
  | ConnectCLAMIR (aIPaddress : String)
  | DisconnectCLAMIR
  deriving DecidableEq, Repr

/-- Process state seen by `ClamirFunctions.cpp`: its two globals (lines 8-9), the
state of the linked library, and the record of the requests made to the library. -/
structure World (D : Type) where
  connection_result : Int
  lIPAddress : String
  dll : D
  calls : List DeviceCall

/-- State at program start: `int connection_result = 1;`
`const char* lIPAddress = "192.168.1.77";`, no request made yet. -/
def World.initial {D : Type} (d : D) : World D :=
  { connection_result := 1, lIPAddress := "192.168.1.77", dll := d, calls := [] }

/-- Documented contract of `ConnectCLAMIR` (`CLAMIR_dll.h` lines 30-39) together with
`IsConnected` (lines 51-56): the status is 0, -1 or -2, and it is 0 exactly when
the communication is active afterwards. -/
def HonoursConnectContract {D : Type} (dev : Device D) : Prop :=
  ∀ (ip : String) (d : D),
    ((dev.ConnectCLAMIR ip d).1 = 0 ∨ (dev.ConnectCLAMIR ip d).1 = -1
      ∨ (dev.ConnectCLAMIR ip d).1 = -2)
    ∧ ((dev.ConnectCLAMIR ip d).1 = 0 ↔ dev.IsConnected (dev.ConnectCLAMIR ip d).2 = 1)

/-- The two globals of `ClamirFunctions.cpp` (lines 8-9), the process-wide state the
wrapper itself owns. -/
def World.globals {D : Type} (w : World D) : Int × String :=
  (w.connection_result, w.lIPAddress)

/-- The value of C type `int` (32 bits, two's complement) that an integer result is
stored as: the representative of `x` modulo 2^32 in [-2^31, 2^31). -/
def wrap32 (x : Int) : Int :=
  (x + 2 ^ 31) % 2 ^ 32 - 2 ^ 31

namespace ClamirFunctions

/-- Method `ClamirFunctions::Add` (ClamirFunctions.cpp lines 11-14): `return a + b;` on
`int`, the sum taken in 32-bit two's complement. -/
def Add (a b : Int) : Int :=
  wrap32 (a + b)

/-- Method `ClamirFunctions::Subtract` (ClamirFunctions.cpp lines 16-19): `return a - b;`
on `int`, the difference taken in 32-bit two's complement. -/
def Subtract (a b : Int) : Int :=
  wrap32 (a - b)

/-- Method `ClamirFunctions::Multiply` (ClamirFunctions.cpp lines 21-24): `return a * b;`
on `float`; the type `F` stands for `float` with its multiplication. -/
def Multiply {F : Type} [Mul F] (a b : F) : F :=
  a * b

/-- Method `ClamirFunctions::Divide` (ClamirFunctions.cpp lines 26-29): `return a / b;`
on `float`; the type `F` stands for `float` with its division. -/
def Divide {F : Type} [Div F] (a b : F) : F :=
  a / b

/-- Method `ClamirFunctions::ConnectDevice` (ClamirFunctions.cpp lines 31-35):
`connection_result = ConnectCLAMIR((char*)lIPAddress); return connection_result;` -/
def ConnectDevice {D : Type} (dev : Device D) (w : World D) : Int × World D :=
  let r := dev.ConnectCLAMIR w.lIPAddress w.dll
  let w1 : World D :=
    { w with connection_result := r.1, dll := r.2,
             calls := w.calls ++ [DeviceCall.ConnectCLAMIR w.lIPAddress] }
  (w1.connection_result, w1)

/-- Method `ClamirFunctions::DisconnectDevice` (ClamirFunctions.cpp lines 36-40):
`connection_result = DisconnectCLAMIR(); return connection_result;` -/
def DisconnectDevice {D : Type} (dev : Device D) (w : World D) : Int × World D :=
  let r := dev.DisconnectCLAMIR w.dll
  let w1 : World D :=
    { w with connection_result := r.1, dll := r.2,
             calls := w.calls ++ [DeviceCall.DisconnectCLAMIR] }
  (w1.connection_result, w1)

end ClamirFunctions

namespace ClamirCLR

/-- Method `ClamirCLR::Add` (ClamirCLR.cpp lines 21-24): `return (clamirfunc->Add(a, b));` -/
def Add (a b : Int) : Int :=
  ClamirFunctions.Add a b

/-- Method `ClamirCLR::Subtract` (ClamirCLR.cpp lines 25-28):
`return (clamirfunc->Subtract(a, b));` -/
def Subtract (a b : Int) : Int :=
  ClamirFunctions.Subtract a b

/-- Method `ClamirCLR::Multiply` (ClamirCLR.cpp lines 29-32):
`return (clamirfunc->Multiply(a, b));` -/
def Multiply {F : Type} [Mul F] (a b : F) : F :=
  ClamirFunctions.Multiply a b

/-- Method `ClamirCLR::Divide` (ClamirCLR.cpp lines 33-36):
`return (clamirfunc->Divide(a, b));` -/
def Divide {F : Type} [Div F] (a b : F) : F :=
  ClamirFunctions.Divide a b

/-- Method `ClamirCLR::ConnectDevice` (ClamirCLR.cpp lines 38-42):
`int result = clamirfunc->ConnectDevice(); return result;` -/
def ConnectDevice {D : Type} (dev : Device D) (w : World D) : Int × World D :=
  let r := ClamirFunctions.ConnectDevice dev w
  let result := r.1
  (result, r.2)

/-- Method `ClamirCLR::DisconnectDevice` (ClamirCLR.cpp lines 43-47):
`int result = clamirfunc->DisconnectDevice(); return result;` -/
def DisconnectDevice {D : Type} (dev : Device D) (w : World D) : Int × World D :=
  let r := ClamirFunctions.DisconnectDevice dev w
  let result := r.1
  (result, r.2)

end ClamirCLR

/-- A call of one of the two connection methods of `ClamirFunctions`. -/
inductive Call where
  | ConnectDevice
  | DisconnectDevice
  deriving DecidableEq, Repr

/-- One call: the returned status and the state after it. -/
def step {D : Type} (dev : Device D) (w : World D) : Call → Int × World D
  | Call.ConnectDevice => ClamirFunctions.ConnectDevice dev w
  | Call.DisconnectDevice => ClamirFunctions.DisconnectDevice dev w

/-- Calls made one after the other: the log of each call with the status it
returned, in call order, and the final state. -/
def run {D : Type} (dev : Device D) : World D → List Call → List (Call × Int) × World D
  | w, [] => ([], w)
  | w, c :: cs =>
    let r := step dev w c
    let rest := run dev r.2 cs
    ((c, r.1) :: rest.1, rest.2)

/-- Status returned by the most recent `ConnectDevice` of a log, if there was one. -/
def lastConnectStatus : List (Call × Int) → Option Int
  | [] => none
  | (c, r) :: rest =>
    match lastConnectStatus rest with
    | some s => some s
    | none => if c = Call.ConnectDevice then some r else none

/-- Requests made to the library between state `w` and a later state `w1`. -/
def issued {D : Type} (w w1 : World D) : List DeviceCall :=
  w1.calls.drop w.calls.length

/-- The library `dev` observed from its own side: next to its state it keeps the
requests it has received, in order. Each entry point answers as `dev` does and adds
the request it received, with its argument, to that record; `IsConnected` is a query
and leaves the record as it is. What a caller made of the library is then read off
the library state, whatever the caller's own `calls` says. -/
def Device.recording {D : Type} (dev : Device D) : Device (D × List DeviceCall) :=
  { ConnectCLAMIR := fun aIPaddress s =>
      ((dev.ConnectCLAMIR aIPaddress s.1).1,
       ((dev.ConnectCLAMIR aIPaddress s.1).2,
        s.2 ++ [DeviceCall.ConnectCLAMIR aIPaddress]))
    DisconnectCLAMIR := fun s =>
      ((dev.DisconnectCLAMIR s.1).1,
       ((dev.DisconnectCLAMIR s.1).2, s.2 ++ [DeviceCall.DisconnectCLAMIR]))
    IsConnected := fun s => dev.IsConnected s.1 }

/-! ## The device library, modelled from the specification

`CLAMIR_dll.h` declares the library's entry points and documents their bounds,
defaults and status codes; their implementation is not in the sources. -/

/-- Modelled from the spec: the outcome of one `Connect` attempt, whose implementation
(`ConnectCLAMIR`) is missing. §4.1: "`Connect(ipAddress)` → success or
`ConnectError{AllocationFailed, ConnectFailed}`". -/
inductive ConnectOutcome where
  | Established
  | AllocationFailed
  | ConnectFailed
  deriving DecidableEq, Repr

/-- Modelled from the spec: the outcome of one `Disconnect`, whose implementation
(`DisconnectCLAMIR`) is missing. §4.1: "`Disconnect()` → success or
`DisconnectError{CloseFailed, SocketReleaseFailed}`". -/
inductive DisconnectOutcome where
  | Released
  | CloseFailed
  | SocketReleaseFailed
  deriving DecidableEq, Repr

/-- Status codes of `ConnectCLAMIR` as documented in `CLAMIR_dll.h` lines 34-36:
0 established, -1 failed to assign a socket, -2 failed to connect. -/
def ConnectOutcome.status : ConnectOutcome → Int
  | ConnectOutcome.Established => 0
  | ConnectOutcome.AllocationFailed => -1
  | ConnectOutcome.ConnectFailed => -2

/-- Status codes of `DisconnectCLAMIR` as documented in `CLAMIR_dll.h` lines 44-46:
0 successful, -1 failed to close connections, -2 failed to close sockets. -/
def DisconnectOutcome.status : DisconnectOutcome → Int
  | DisconnectOutcome.Released => 0
  | DisconnectOutcome.CloseFailed => -1
  | DisconnectOutcome.SocketReleaseFailed => -2

/-- Modelled from the spec: what happens on the wire to one command request, the
transport being missing from the sources. §4.2: a response arrives, or "no response
within the per-command timeout", or "socket fault or malformed/short response". -/
inductive Link where
  | Answered
  | NoResponse
  | Fault
  deriving DecidableEq, Repr

/-- Modelled from the spec: the result tags of a command, §4.5 and §7: the generic
"{Success, Timeout, CommunicationError, OutOfBounds}" extended "with command-specific
tags (InvalidOrdering, ModeConflict)". -/
inductive CmdStatus where
  | Success
  | Timeout
  | CommunicationError
  | OutOfBounds
  | InvalidOrdering
  | ModeConflict
  deriving DecidableEq, Repr

/-- The `int` each tag travels as, from the `@returns` lines of `CLAMIR_dll.h`:
0, -1, -2, -3 (e.g. `KISet`, lines 118-121), -4 for the ordering of the ROI
coordinates (line 593), and -3 for the auto shutter mode conflict (line 970). -/
def CmdStatus.wire : CmdStatus → Int
  | CmdStatus.Success => 0
  | CmdStatus.Timeout => -1
  | CmdStatus.CommunicationError => -2
  | CmdStatus.OutOfBounds => -3
  | CmdStatus.InvalidOrdering => -4
  | CmdStatus.ModeConflict => -3

/-- C type of the argument of a parameter's `...Set` function in `CLAMIR_dll.h`. -/
inductive ArgType where
  | int16_t
  | int
  | float
  deriving DecidableEq, Repr

/-- The parameters of `CLAMIR_dll.h` that have a `...Set` function of one argument
with documented bounds and a `...Get` function, in the order of the header. -/
inductive ParamId where
  | KI | KP | KD | MaxPower | MinPower | Threshold
  | ThresholdToStartTracks | ThresholdToEndTracks | ManualPower | Mode
  | ReferenceTrackStart | ReferenceTrackEnd | TrackDuration
  | ManualReferenceWidthValue | RoundROI | EnableROI
  | PowerLimitMax | PowerLimitMin | PixelToMillimeterRatio | EndOfProcessTime
  | LimitIntegral | LimitSlewRate | CircularBufferSize | EnableAlarm
  | AlarmMax | AlarmMin | AlarmTime | Automeasure
  | AutoshutterDriftTemperature | AutoshutterTimer | LaserExternal | LaserONDelay
  | EnablePreheating | PreheatingTime | PreheatingPower | IntegrationTime
  | BiasVoltage | BlackLevel
  deriving DecidableEq, Repr

/-- One entry of the parameter catalog: argument type of the `...Set` function, the
documented "Min value" and "Max value", the documented "Default value", and the
precision the header declares for the value, if it declares one. Values of `float`
parameters are exact rationals; `int16_t` and `int` values are the integers. -/
structure ParamInfo where
  argType : ArgType
  min : ℚ
  max : ℚ
  default : ℚ
  precision : Option ℚ

/-- The catalog, transcribed from the comment of each `...Set` function of
`CLAMIR_dll.h` (the line of the declaration is given with each entry). -/
def catalog : ParamId → ParamInfo
  | ParamId.KI => ⟨ArgType.int16_t, 0, 30000, 500, none⟩                       -- 123
  | ParamId.KP => ⟨ArgType.int16_t, 0, 30000, 200, none⟩                       -- 151
  | ParamId.KD => ⟨ArgType.int16_t, 0, 30000, 100, none⟩                       -- 179
  | ParamId.MaxPower => ⟨ArgType.int16_t, 100, 30000, 1500, none⟩              -- 207
  | ParamId.MinPower => ⟨ArgType.int16_t, -30000, 9900, 500, none⟩             -- 235
  | ParamId.Threshold => ⟨ArgType.int16_t, 0, 5000, 1200, none⟩                -- 263
  | ParamId.ThresholdToStartTracks => ⟨ArgType.int16_t, 0, 2000, 40, none⟩     -- 292
  | ParamId.ThresholdToEndTracks => ⟨ArgType.int16_t, 0, 1000, 30, none⟩       -- 320
  | ParamId.ManualPower => ⟨ArgType.int16_t, 0, 30000, 1000, none⟩             -- 348
  | ParamId.Mode => ⟨ArgType.int16_t, 0, 2, 2, none⟩                           -- 387
  | ParamId.ReferenceTrackStart => ⟨ArgType.int16_t, 0, 100, 0, none⟩          -- 415
  | ParamId.ReferenceTrackEnd => ⟨ArgType.int16_t, 0, 100, 3, none⟩            -- 443
  | ParamId.TrackDuration => ⟨ArgType.float, 1 / 10, 1000, 2, none⟩            -- 469
  | ParamId.ManualReferenceWidthValue => ⟨ArgType.float, 0, 65, 1, none⟩       -- 497
  | ParamId.RoundROI => ⟨ArgType.int16_t, 0, 3, 0, none⟩                       -- 533
  | ParamId.EnableROI => ⟨ArgType.int, 0, 1, 0, none⟩                          -- 561
  | ParamId.PowerLimitMax => ⟨ArgType.int16_t, 1, 30000, 1500, none⟩           -- 626
  | ParamId.PowerLimitMin => ⟨ArgType.int16_t, 0, 9999, 500, none⟩             -- 654
  | ParamId.PixelToMillimeterRatio =>
      ⟨ArgType.float, 1 / 100, 10, 15 / 1000, some (1 / 1000)⟩                -- 682
  | ParamId.EndOfProcessTime => ⟨ArgType.int16_t, 500, 30000, 5000, none⟩      -- 710
  | ParamId.LimitIntegral => ⟨ArgType.int16_t, 0, 10000, 5000, none⟩           -- 738
  | ParamId.LimitSlewRate => ⟨ArgType.float, 1 / 100, 300, 1, none⟩            -- 766
  | ParamId.CircularBufferSize => ⟨ArgType.int16_t, 1, 512, 4, none⟩           -- 794
  | ParamId.EnableAlarm => ⟨ArgType.int, 0, 1, 0, none⟩                        -- 820
  | ParamId.AlarmMax => ⟨ArgType.float, 0, 320, 5, some (1 / 100)⟩             -- 848
  | ParamId.AlarmMin => ⟨ArgType.float, 0, 320, 1, some (1 / 100)⟩             -- 876
  | ParamId.AlarmTime => ⟨ArgType.int16_t, 0, 10000, 2000, none⟩               -- 904
  | ParamId.Automeasure => ⟨ArgType.int, 0, 1, 1, none⟩                        -- 940
  | ParamId.AutoshutterDriftTemperature => ⟨ArgType.float, 1 / 10, 50, 3, none⟩ -- 1003
  | ParamId.AutoshutterTimer => ⟨ArgType.float, 10, 320000, 180, none⟩         -- 1031
  | ParamId.LaserExternal => ⟨ArgType.int, 0, 1, 0, none⟩                      -- 1059
  | ParamId.LaserONDelay => ⟨ArgType.int16_t, 0, 1000, 0, none⟩                -- 1088
  | ParamId.EnablePreheating => ⟨ArgType.int, 0, 1, 0, none⟩                   -- 1116
  | ParamId.PreheatingTime => ⟨ArgType.int16_t, 0, 30000, 0, none⟩             -- 1144
  | ParamId.PreheatingPower => ⟨ArgType.int16_t, 0, 10000, 1500, none⟩         -- 1172
  | ParamId.IntegrationTime => ⟨ArgType.int16_t, 50, 800, 200, none⟩           -- 1270
  | ParamId.BiasVoltage => ⟨ArgType.float, 1, 3, 2, some (1 / 2 ^ 14)⟩         -- 1298
  | ParamId.BlackLevel => ⟨ArgType.int16_t, 0, 10000, 1000, none⟩              -- 1343

/-- Modelled from the spec: the state of the device library, which is missing from
the sources. §3: "Connection: state ∈ {Disconnected, Connected}" (`connected`); the
value each parameter currently has on the device, the ROI coordinates
(X1, Y1, X2, Y2) and the auto shutter flags (flagEnable, flagEnableInProcess,
flagTemperatureDrift, flagTimer), "in a fixed, non-reorderable field order" (§4.2).
`connectOutcomes` and `disconnectOutcomes` are what the environment will do to the
coming attempts, in order; once a list is used up the further attempts meet no
obstacle. -/
structure Dll where
  connected : Bool
  connectOutcomes : List ConnectOutcome
  disconnectOutcomes : List DisconnectOutcome
  values : ParamId → ℚ
  roi : Int × Int × Int × Int
  autoShutter : Bool × Bool × Bool × Bool

namespace Dll

/-- Modelled from the spec: the library before any call. §3: a Connection "is created by
an explicit connect call", so the state is Disconnected; every parameter has the
documented default of `CLAMIR_dll.h` (ROI default line 577, auto shutter default
line 957: both enable flags off, temperature drift mode active). -/
def initial (cs : List ConnectOutcome) (ds : List DisconnectOutcome) : Dll :=
  { connected := false, connectOutcomes := cs, disconnectOutcomes := ds,
    values := fun p => (catalog p).default,
    roi := (2, 2, 61, 61),
    autoShutter := (false, false, true, false) }

/-- Modelled from the spec: `ConnectCLAMIR`, missing from the sources. §4.1:
"transitions Disconnected→Connected only on success; calling while already connected
first tears down the prior connection before re-establishing": whatever the state
was, the state afterwards is Connected exactly when this attempt succeeded. -/
def ConnectCLAMIR (_aIPaddress : String) (s : Dll) : Int × Dll :=
  let o := s.connectOutcomes.headD ConnectOutcome.Established
  (o.status,
   { s with connected := decide (o = ConnectOutcome.Established),
            connectOutcomes := s.connectOutcomes.tail })

/-- Modelled from the spec: `DisconnectCLAMIR`, missing from the sources. §4.1:
"always leaves state Disconnected even under partial failure (best-effort release of
both sockets)". -/
def DisconnectCLAMIR (s : Dll) : Int × Dll :=
  let o := s.disconnectOutcomes.headD DisconnectOutcome.Released
  (o.status, { s with connected := false, disconnectOutcomes := s.disconnectOutcomes.tail })

/-- Modelled from the spec: `IsConnected`, missing from the sources. §4.1: "a pure state
query"; `CLAMIR_dll.h` line 54: 1 if the communication is active, 0 otherwise. -/
def IsConnected (s : Dll) : Int :=
  if s.connected then 1 else 0

/-- The modelled library as an implementation of the wrapper's imports. -/
def device : Device Dll :=
  { ConnectCLAMIR := ConnectCLAMIR, DisconnectCLAMIR := DisconnectCLAMIR,
    IsConnected := IsConnected }

/-- Modelled from the spec: the transport of one command, missing from the sources:
the failure it ends in, or `none` when the device answers. §3: "a command or image
request requires Connected state"; §4.2: "−1 Timeout (no response within the
per-command timeout ...); −2 CommunicationError (socket fault or malformed/short
response)". -/
def transport (link : Link) (s : Dll) : Option CmdStatus :=
  if s.connected then
    match link with
    | Link.Answered => none
    | Link.NoResponse => some CmdStatus.Timeout
    | Link.Fault => some CmdStatus.CommunicationError
  else some CmdStatus.CommunicationError

/-- Documented range check of a parameter: "Min value" ≤ v ≤ "Max value". -/
def inBounds (p : ParamId) (v : ℚ) : Bool :=
  decide ((catalog p).min ≤ v) && decide (v ≤ (catalog p).max)

/-- Modelled from the spec: the value the device keeps for an accepted `v`: `v` itself,
or, for a parameter with a declared precision `q`, `v` cut down to a multiple of
`q` ("bias voltage quantized to 1/2^14", §3 and §8). -/
def stored (p : ParamId) (v : ℚ) : ℚ :=
  match (catalog p).precision with
  | none => v
  | some q => ⌊v / q⌋ * q

/-- Modelled from the spec: `Set(parameter, value)` of §4.2, standing for the
`...Set` functions of one argument, which are missing from the sources. A request
that is not answered ends in the transport's failure; an answered one is
"−3 OutOfBounds (device rejected a value outside its documented range)" or
succeeds and the device keeps the value. A failed Set leaves the state unchanged (§7). -/
def Set (link : Link) (p : ParamId) (v : ℚ) (s : Dll) : CmdStatus × Dll :=
  match transport link s with
  | some e => (e, s)
  | none =>
    if inBounds p v then
      (CmdStatus.Success, { s with values := Function.update s.values p (stored p v) })
    else (CmdStatus.OutOfBounds, s)

/-- Modelled from the spec: `Get(parameter)` of §4.2, standing for the `...Get`
functions, which are missing from the sources: "value or `CmdError`"; the value is
the one the device keeps. -/
def Get (link : Link) (p : ParamId) (s : Dll) : CmdStatus × Option ℚ :=
  match transport link s with
  | some e => (e, none)
  | none => (CmdStatus.Success, some (s.values p))

/-- Modelled from the spec: `ROICoordinatesSet`, missing from the sources. §3: "ROI:
X1<X2 and Y1<Y2, else rejected regardless of individual bounds"; §4.2: "−4
InvalidOrdering (ROICoordinatesSet only, when X1/Y1 ≥ X2/Y2)"; the bounds are those
of `CLAMIR_dll.h` lines 579-583: X1 and Y1 in 1..62, X2 and Y2 in 2..63. -/
def ROICoordinatesSet (link : Link) (X1 Y1 X2 Y2 : Int) (s : Dll) : CmdStatus × Dll :=
  match transport link s with
  | some e => (e, s)
  | none =>
    if X1 ≥ X2 ∨ Y1 ≥ Y2 then (CmdStatus.InvalidOrdering, s)
    else if 1 ≤ X1 ∧ X1 ≤ 62 ∧ 1 ≤ Y1 ∧ Y1 ≤ 62 ∧ 2 ≤ X2 ∧ X2 ≤ 63 ∧ 2 ≤ Y2 ∧ Y2 ≤ 63 then
      (CmdStatus.Success, { s with roi := (X1, Y1, X2, Y2) })
    else (CmdStatus.OutOfBounds, s)

/-- Modelled from the spec: `ROICoordinatesGet`, missing from the sources: the four
coordinates the device keeps, in the order X1, Y1, X2, Y2. -/
def ROICoordinatesGet (link : Link) (s : Dll) : CmdStatus × Option (Int × Int × Int × Int) :=
  match transport link s with
  | some e => (e, none)
  | none => (CmdStatus.Success, some s.roi)

/-- Modelled from the spec: `AutoShutterConfigurationSet`, missing from the sources.
§3: "Auto-shutter: exactly one of {temperatureDrift, timer} true, never both, never
neither"; §8: "with both `temperatureDrift` and `timer` true, or both false, returns
`ModeConflict`; exactly one true succeeds". The four flags are the 0/1 arguments of
the C function. -/
def AutoShutterConfigurationSet (link : Link)
    (flagEnable flagEnableInProcess flagTemperatureDrift flagTimer : Bool) (s : Dll) :
    CmdStatus × Dll :=
  match transport link s with
  | some e => (e, s)
  | none =>
    if flagTemperatureDrift = flagTimer then (CmdStatus.ModeConflict, s)
    else
      (CmdStatus.Success,
       { s with autoShutter :=
                  (flagEnable, flagEnableInProcess, flagTemperatureDrift, flagTimer) })

/-- Modelled from the spec: `AutoShutterConfigurationGet`, missing from the sources:
the four flags the device keeps, in the order of the arguments. -/
def AutoShutterConfigurationGet (link : Link) (s : Dll) :
    CmdStatus × Option (Bool × Bool × Bool × Bool) :=
  match transport link s with
  | some e => (e, none)
  | none => (CmdStatus.Success, some s.autoShutter)

end Dll

/-! ## Images -/

/-- The `struct ImageHeader` of `CLAMIR_dll.h` (lines 73-79), field by field:
`int Power, MeltPoolArea, TrackNum, FrameMax, FrameNum;`
`float Width, RefWidth, Temperature;` `char LaserStatus, StateMachine;`
`int16_t IODigitalPortStatus;`. The `float` fields are exact rationals. -/
structure ImageHeader where
  Power : Int
  MeltPoolArea : Int
  TrackNum : Int
  FrameMax : Int
  FrameNum : Int
  Width : ℚ
  RefWidth : ℚ
  Temperature : ℚ
  LaserStatus : Int
  StateMachine : Int
  IODigitalPortStatus : Int

/-- Values of C type `int`: 32 bits, two's complement. -/
def IsInt32 (x : Int) : Prop := -2 ^ 31 ≤ x ∧ x < 2 ^ 31

/-- Values of C type `int16_t`. -/
def IsInt16 (x : Int) : Prop := -2 ^ 15 ≤ x ∧ x < 2 ^ 15

/-- Values of C type `char` (8 bits, signed). -/
def IsChar (x : Int) : Prop := -2 ^ 7 ≤ x ∧ x < 2 ^ 7

instance (x : Int) : Decidable (IsInt32 x) := by unfold IsInt32; infer_instance

instance (x : Int) : Decidable (IsInt16 x) := by unfold IsInt16; infer_instance

instance (x : Int) : Decidable (IsChar x) := by unfold IsChar; infer_instance

/-- The values the declared field types of `struct ImageHeader` admit. -/
def ImageHeader.WellTyped (h : ImageHeader) : Prop :=
  IsInt32 h.Power ∧ IsInt32 h.MeltPoolArea ∧ IsInt32 h.TrackNum ∧ IsInt32 h.FrameMax
  ∧ IsInt32 h.FrameNum ∧ IsChar h.LaserStatus ∧ IsChar h.StateMachine
  ∧ IsInt16 h.IODigitalPortStatus

/-- Bit `k` of a field value (two's complement): bit 0 is the least significant. -/
def bit (v : Int) (k : Nat) : Bool :=
  decide (v / 2 ^ k % 2 = 1)

/-- The eight port flags of `IODigitalPortStatus`, in the order of the comment of
`struct ImageHeader` (`CLAMIR_dll.h` line 68): "Bits 0 In1, 1 In2, 2 Out1 (alarm),
3 Out2, 4 In3, 5 In4, 6 Out3, 7 Out4". -/
structure PortFlags where
  In1 : Bool
  In2 : Bool
  Out1 : Bool
  Out2 : Bool
  In3 : Bool
  In4 : Bool
  Out3 : Bool
  Out4 : Bool
  deriving DecidableEq, Repr

/-- The port flags read from a header, each from its documented bit. -/
def ImageHeader.portFlags (h : ImageHeader) : PortFlags :=
  { In1 := bit h.IODigitalPortStatus 0, In2 := bit h.IODigitalPortStatus 1,
    Out1 := bit h.IODigitalPortStatus 2, Out2 := bit h.IODigitalPortStatus 3,
    In3 := bit h.IODigitalPortStatus 4, In4 := bit h.IODigitalPortStatus 5,
    Out3 := bit h.IODigitalPortStatus 6, Out4 := bit h.IODigitalPortStatus 7 }

/-- The field value that has exactly the given flags set, each at its documented bit. -/
def PortFlags.value (f : PortFlags) : Int :=
  (if f.In1 then 1 else 0) + (if f.In2 then 2 else 0) + (if f.Out1 then 4 else 0)
  + (if f.Out2 then 8 else 0) + (if f.In3 then 16 else 0) + (if f.In4 then 32 else 0)
  + (if f.Out3 then 64 else 0) + (if f.Out4 then 128 else 0)

/-- Modelled from the spec: the failures of an image read, §4.3:
"`ImgError{Timeout, CommunicationError, ConnectionClosed}`". -/
inductive ImgError where
  | Timeout
  | CommunicationError
  | ConnectionClosed
  deriving DecidableEq, Repr

/-- The `int` each failure travels as, from the `@returns` lines of `GetImage` and
`GetImageRawHeader` (`CLAMIR_dll.h` lines 87-89 and 99-101): -1 timeout, -2 another
communication error, -3 closed connection. -/
def ImgError.wire : ImgError → Int
  | ImgError.Timeout => -1
  | ImgError.CommunicationError => -2
  | ImgError.ConnectionClosed => -3

/-- The `int` an image read returns: 0 "if data was successfully retrieved"
(`CLAMIR_dll.h` lines 86 and 98), else the code of the failure. -/
def imgStatus {α : Type} : Except ImgError α → Int
  | Except.ok _ => 0
  | Except.error e => e.wire

/-- Modelled from the spec: what reaches the image channel during one read, the
transport being missing from the sources: the header integers and the samples that
arrived (possibly fewer than a frame has), nothing before the timeout elapsed, a
socket fault, or the peer closing the connection (§4.3, §8). -/
inductive Arrival where
  | Data (rawHeader : List Int) (samples : List Int)
  | Nothing
  | Fault
  | Closed

/-- Modelled from the spec: a complete frame, §4.3 "header + exactly 4096 samples",
the raw header being the "fixed 60-element integer array" of §3 and the samples
"16-bit": 60 values of C type `int` and 4096 values of type `int16_t`, the element
types of the buffers of `GetImageRawHeader` (`CLAMIR_dll.h` line 103). -/
def completeFrame (rawHeader samples : List Int) : Bool :=
  decide (rawHeader.length = 60) && decide (samples.length = 4096)
    && rawHeader.all (fun x => decide (IsInt32 x))
    && samples.all (fun x => decide (IsInt16 x))

namespace Dll

/-- Modelled from the spec: `GetImageRawHeader`, missing from the sources. §4.3: the
same error set and transport as `GetImage`, "returning the undecoded 60-integer
header"; "a short/truncated frame is CommunicationError, not a partial result";
without a connection the read is ConnectionClosed (§3: "a command or image request
requires Connected state"; `CLAMIR_dll.h` line 101: "-3 on a closed connection"). -/
def GetImageRawHeader (a : Arrival) (s : Dll) : Except ImgError (List Int × List Int) :=
  if s.connected then
    match a with
    | Arrival.Data rawHeader samples =>
      if completeFrame rawHeader samples then Except.ok (rawHeader, samples)
      else Except.error ImgError.CommunicationError
    | Arrival.Nothing => Except.error ImgError.Timeout
    | Arrival.Fault => Except.error ImgError.CommunicationError
    | Arrival.Closed => Except.error ImgError.ConnectionClosed
  else Except.error ImgError.ConnectionClosed

/-- Modelled from the spec: `GetImage`, missing from the sources. §4.3:
"`GetImage()` → `(ImageHeader, PixelBuffer)` or `ImgError{...}`", with the transport of
`GetImageRawHeader`; the structured header is the decode of the raw one, "a pure,
stateless, reusable decode" that the sources do not give and that is taken as the
parameter `decode`. -/
def GetImage (decode : List Int → ImageHeader) (a : Arrival) (s : Dll) :
    Except ImgError (ImageHeader × List Int) :=
  match GetImageRawHeader a s with
  | Except.ok (rawHeader, samples) => Except.ok (decode rawHeader, samples)
  | Except.error e => Except.error e

end Dll

/-! ## Capture file layout -/

/-- Modelled from the spec: the order in which the bytes of an integer are written.
§9 leaves it open ("the byte order/endianness of the 60-integer raw header is not
specified"), so the layout is given for both. -/
inductive ByteOrder where
  | LittleEndian
  | BigEndian
  deriving DecidableEq, Repr

/-- The `width` bytes of an integer in two's complement, least significant first. -/
def bytesLE : Nat → Int → List Nat
  | 0, _ => []
  | w + 1, v => (v % 256).toNat :: bytesLE w (v / 256)

/-- The unsigned number a list of bytes stands for, least significant first. -/
def unsignedLE : List Nat → Nat
  | [] => 0
  | b :: bs => b + 256 * unsignedLE bs

/-- The two's-complement integer a list of bytes stands for, least significant first. -/
def signedLE (bs : List Nat) : Int :=
  if 2 * unsignedLE bs < 256 ^ bs.length then (unsignedLE bs : Int)
  else (unsignedLE bs : Int) - 256 ^ bs.length

/-- The `width` bytes of an integer as written in the given byte order. -/
def intBytes (order : ByteOrder) (width : Nat) (v : Int) : List Nat :=
  match order with
  | ByteOrder.LittleEndian => bytesLE width v
  | ByteOrder.BigEndian => (bytesLE width v).reverse

/-- The integer that `width` bytes at offset `off` of a file stand for. -/
def readInt (order : ByteOrder) (width : Nat) (file : List Nat) (off : Nat) : Int :=
  match order with
  | ByteOrder.LittleEndian => signedLE ((file.drop off).take width)
  | ByteOrder.BigEndian => signedLE ((file.drop off).take width).reverse

/-- Modelled from the spec: the raw header and the pixel buffer written verbatim, as in
the native capture file, which no function of the sources writes. §6: "60 four-byte
integers (raw header) followed by 4096 two-byte pixel samples": every header
integer (C `int`) as 4 bytes, then every sample (`int16_t`) as 2 bytes. -/
def captureBytes (order : ByteOrder) (rawHeader samples : List Int) : List Nat :=
  rawHeader.flatMap (intBytes order 4) ++ samples.flatMap (intBytes order 2)

/-! ## Status codes and error tags -/

/-- Modelled from the spec: the command families the error mapping distinguishes
(§4.5: "wire status integer + command family → structured error tag"): the
one-argument `...Set` / `...Get` functions, the ROI coordinates, the auto shutter
configuration. -/
inductive Family where
  | Parameter
  | ROICoordinates
  | AutoShutterConfiguration
  deriving DecidableEq, Repr

/-- Modelled from the spec: the error mapping of §4.5, which is missing from the
sources, over the status codes documented in `CLAMIR_dll.h`: 0, -1, -2 for every
command; -3 is "an out of bounds value" (e.g. line 121) except for
`AutoShutterConfigurationSet`, where it is "both temperature drift and timer flags
are ture or both are false" (line 970); -4 exists for `ROICoordinatesSet` only
(line 593). -/
def errorTag (f : Family) (status : Int) : Option CmdStatus :=
  if status = 0 then some CmdStatus.Success
  else if status = -1 then some CmdStatus.Timeout
  else if status = -2 then some CmdStatus.CommunicationError
  else if status = -3 then
    match f with
    | Family.AutoShutterConfiguration => some CmdStatus.ModeConflict
    | _ => some CmdStatus.OutOfBounds
  else if status = -4 then
    match f with
    | Family.ROICoordinates => some CmdStatus.InvalidOrdering
    | _ => none
  else none

/-! ## Documented defaults, bounds and return codes of `CLAMIR_dll.h` -/

/-- Documented default of the ROI coordinates (`CLAMIR_dll.h` line 577):
"(X1, Y1) = (2, 2) --- (X2, Y2) = (61, 61)", in the order X1, Y1, X2, Y2. -/
def ROIDefault : Int × Int × Int × Int := (2, 2, 61, 61)

/-- Documented bounds of the ROI coordinates X1 and Y1 (`CLAMIR_dll.h` lines 580-581):
"X1 and Y1 max value 62", "X1 and Y1 min value 1"; minimum first. -/
def ROILowBounds : Int × Int := (1, 62)

/-- Documented bounds of the ROI coordinates X2 and Y2 (`CLAMIR_dll.h` lines 582-583):
"X2 and Y2 max value 63", "X2 and Y2 min value 2"; minimum first. -/
def ROIHighBounds : Int × Int := (2, 63)

/-- Documented default of the auto shutter configuration (`CLAMIR_dll.h` line 957):
"the auto shutter process and the auto shutter while in process flag are disabled.
The active mode by default is the drift temperature one", in the order flagEnable,
flagEnableInProcess, flagTemperatureDrift, flagTimer. -/
def AutoShutterDefault : Bool × Bool × Bool × Bool := (false, false, true, false)

/-- Whether a function of `CLAMIR_dll.h` is named `...Set` or `...Get`. -/
inductive AccessorKind where
  | Set
  | Get
  deriving DecidableEq, Repr

/-- What the comment of one accessor of `CLAMIR_dll.h` documents: the function's name,
the line of its declaration, its kind, whether the comment has "Bounds" with a
"Max value" and a "Min value", and the codes of its `@returns` lines in order. -/
structure AccessorDoc where
  name : String
  line : Nat
  kind : AccessorKind
  documentsBounds : Bool
  returns : List Int
  deriving DecidableEq, Repr

/-- The `@returns` lines "0 on a successful communication", "-1 on a timeout error",
"-2 on another communication error". -/
def returns012 : List Int := [0, -1, -2]

/-- The `@returns` lines of `returns012` followed by a line for -3. -/
def returns0123 : List Int := [0, -1, -2, -3]

/-- The `@returns` lines of `returns0123` followed by a line for -4. -/
def returns01234 : List Int := [0, -1, -2, -3, -4]

/-- The comments of every function of `CLAMIR_dll.h` named `...Set` or `...Get`, in the
order of the header (the image reads `GetImage` and `GetImageRawHeader` are not so
named). -/
def accessorDocs : List AccessorDoc :=
  [
    AccessorDoc.mk "KISet" 123 AccessorKind.Set true returns0123,
    AccessorDoc.mk "KIGet" 132 AccessorKind.Get false returns012,
    AccessorDoc.mk "KPSet" 151 AccessorKind.Set true returns0123,
    AccessorDoc.mk "KPGet" 160 AccessorKind.Get false returns012,
    AccessorDoc.mk "KDSet" 179 AccessorKind.Set true returns0123,
    AccessorDoc.mk "KDGet" 188 AccessorKind.Get false returns012,
    AccessorDoc.mk "MaxPowerSet" 207 AccessorKind.Set true returns0123,
    AccessorDoc.mk "MaxPowerGet" 216 AccessorKind.Get false returns012,
    AccessorDoc.mk "MinPowerSet" 235 AccessorKind.Set true returns0123,
    AccessorDoc.mk "MinPowerGet" 244 AccessorKind.Get false returns012,
    AccessorDoc.mk "ThresholdSet" 263 AccessorKind.Set true returns0123,
    AccessorDoc.mk "ThresholdGet" 272 AccessorKind.Get false returns012,
    AccessorDoc.mk "ThresholdToStartTracksSet" 292 AccessorKind.Set true returns0123,
    AccessorDoc.mk "ThresholdToStartTracksGet" 301 AccessorKind.Get false returns012,
    AccessorDoc.mk "ThresholdToEndTracksSet" 320 AccessorKind.Set true returns0123,
    AccessorDoc.mk "ThresholdToEndTracksGet" 329 AccessorKind.Get false returns012,
    AccessorDoc.mk "ManualPowerSet" 348 AccessorKind.Set true returns0123,
    AccessorDoc.mk "ManualPowerGet" 357 AccessorKind.Get false returns012,
    AccessorDoc.mk "AutoCalibrateSet" 365 AccessorKind.Set false returns012,
    AccessorDoc.mk "ModeSet" 387 AccessorKind.Set true returns0123,
    AccessorDoc.mk "ModeGet" 396 AccessorKind.Get false returns012,
    AccessorDoc.mk "ReferenceTrackStartSet" 415 AccessorKind.Set true returns0123,
    AccessorDoc.mk "ReferenceTrackStartGet" 424 AccessorKind.Get false returns012,
    AccessorDoc.mk "ReferenceTrackEndSet" 443 AccessorKind.Set true returns0123,
    AccessorDoc.mk "ReferenceTrackEndGet" 452 AccessorKind.Get false returns012,
    AccessorDoc.mk "TrackDurationSet" 469 AccessorKind.Set true returns0123,
    AccessorDoc.mk "TrackDurationGet" 478 AccessorKind.Get false returns012,
    AccessorDoc.mk "ManualReferenceWidthValueSet" 497 AccessorKind.Set true returns0123,
    AccessorDoc.mk "ManualReferenceWidthValueGet" 506 AccessorKind.Get false returns012,
    AccessorDoc.mk "UpdateSetPointSet" 514 AccessorKind.Set false returns012,
    AccessorDoc.mk "RoundROISet" 533 AccessorKind.Set true returns0123,
    AccessorDoc.mk "RoundROIGet" 543 AccessorKind.Get false returns0123,
    AccessorDoc.mk "EnableROISet" 561 AccessorKind.Set true returns012,
    AccessorDoc.mk "EnableROIGet" 570 AccessorKind.Get false returns012,
    AccessorDoc.mk "ROICoordinatesSet" 595 AccessorKind.Set true returns01234,
    AccessorDoc.mk "ROICoordinatesGet" 607 AccessorKind.Get false returns012,
    AccessorDoc.mk "PowerLimitMaxSet" 626 AccessorKind.Set true returns0123,
    AccessorDoc.mk "PowerLimitMaxGet" 635 AccessorKind.Get false returns012,
    AccessorDoc.mk "PowerLimitMinSet" 654 AccessorKind.Set true returns0123,
    AccessorDoc.mk "PowerLimitMinGet" 663 AccessorKind.Get false returns012,
    AccessorDoc.mk "PixelToMillimeterRatioSet" 682 AccessorKind.Set true returns0123,
    AccessorDoc.mk "PixelToMillimeterRatioGet" 691 AccessorKind.Get false returns012,
    AccessorDoc.mk "EndOfProcessTimeSet" 710 AccessorKind.Set true returns0123,
    AccessorDoc.mk "EndOfProcessTimeGet" 719 AccessorKind.Get false returns012,
    AccessorDoc.mk "LimitIntegralSet" 738 AccessorKind.Set true returns0123,
    AccessorDoc.mk "LimitIntegralGet" 747 AccessorKind.Get false returns012,
    AccessorDoc.mk "LimitSlewRateSet" 766 AccessorKind.Set true returns0123,
    AccessorDoc.mk "LimitSlewRateGet" 775 AccessorKind.Get false returns012,
    AccessorDoc.mk "CircularBufferSizeSet" 794 AccessorKind.Set true returns0123,
    AccessorDoc.mk "CircularBufferSizeGet" 803 AccessorKind.Get false returns012,
    AccessorDoc.mk "EnableAlarmSet" 820 AccessorKind.Set true returns0123,
    AccessorDoc.mk "EnableAlarmGet" 829 AccessorKind.Get false returns012,
    AccessorDoc.mk "AlarmMaxSet" 848 AccessorKind.Set true returns0123,
    AccessorDoc.mk "AlarmMaxGet" 857 AccessorKind.Get false returns012,
    AccessorDoc.mk "AlarmMinSet" 876 AccessorKind.Set true returns0123,
    AccessorDoc.mk "AlarmMinGet" 885 AccessorKind.Get false returns012,
    AccessorDoc.mk "AlarmTimeSet" 904 AccessorKind.Set true returns0123,
    AccessorDoc.mk "AlarmTimeGet" 913 AccessorKind.Get false returns012,
    AccessorDoc.mk "SerialNumberGet" 922 AccessorKind.Get false returns012,
    AccessorDoc.mk "AutomeasureSet" 940 AccessorKind.Set true returns0123,
    AccessorDoc.mk "AutomeasureGet" 949 AccessorKind.Get false returns012,
    AccessorDoc.mk "AutoShutterConfigurationSet" 972 AccessorKind.Set true returns0123,
    AccessorDoc.mk "AutoShutterConfigurationGet" 984 AccessorKind.Get false returns012,
    AccessorDoc.mk "AutoshutterDriftTemperatureSet" 1003 AccessorKind.Set true returns0123,
    AccessorDoc.mk "AutoshutterDriftTemperatureGet" 1012 AccessorKind.Get false returns012,
    AccessorDoc.mk "AutoshutterTimerSet" 1031 AccessorKind.Set true returns0123,
    AccessorDoc.mk "AutoshutterTimerGet" 1040 AccessorKind.Get false returns012,
    AccessorDoc.mk "LaserExternalSet" 1059 AccessorKind.Set true returns0123,
    AccessorDoc.mk "LaserExternalGet" 1068 AccessorKind.Get false returns012,
    AccessorDoc.mk "LaserONDelaySet" 1088 AccessorKind.Set true returns0123,
    AccessorDoc.mk "LaserONDelayGet" 1097 AccessorKind.Get false returns012,
    AccessorDoc.mk "EnablePreheatingSet" 1116 AccessorKind.Set true returns0123,
    AccessorDoc.mk "EnablePreheatingGet" 1125 AccessorKind.Get false returns012,
    AccessorDoc.mk "PreheatingTimeSet" 1144 AccessorKind.Set true returns0123,
    AccessorDoc.mk "PreheatingTimeGet" 1153 AccessorKind.Get false returns012,
    AccessorDoc.mk "PreheatingPowerSet" 1172 AccessorKind.Set true returns0123,
    AccessorDoc.mk "PreheatingPowerGet" 1181 AccessorKind.Get false returns012,
    AccessorDoc.mk "DigitalOut1Set" 1190 AccessorKind.Set false returns012,
    AccessorDoc.mk "DigitalIn1Get" 1199 AccessorKind.Get false returns012,
    AccessorDoc.mk "DigitalOut2Set" 1208 AccessorKind.Set false returns012,
    AccessorDoc.mk "DigitalIn2Get" 1217 AccessorKind.Get false returns012,
    AccessorDoc.mk "DigitalOut3Set" 1226 AccessorKind.Set false returns012,
    AccessorDoc.mk "DigitalIn3Get" 1235 AccessorKind.Get false returns012,
    AccessorDoc.mk "DigitalOut4Set" 1244 AccessorKind.Set false returns012,
    AccessorDoc.mk "DigitalIn4Get" 1253 AccessorKind.Get false returns012,
    AccessorDoc.mk "IntegrationTimeSet" 1270 AccessorKind.Set true returns0123,
    AccessorDoc.mk "IntegrationTimeGet" 1279 AccessorKind.Get false returns012,
    AccessorDoc.mk "BiasVoltageSet" 1298 AccessorKind.Set true returns0123,
    AccessorDoc.mk "BiasVoltageGet" 1307 AccessorKind.Get false returns012,
    AccessorDoc.mk "ShutterPositionSet" 1316 AccessorKind.Set false returns012,
    AccessorDoc.mk "SaveEmbeddedConfigurationSet" 1324 AccessorKind.Set false returns012,
    AccessorDoc.mk "BlackLevelSet" 1343 AccessorKind.Set true returns0123,
    AccessorDoc.mk "BlackLevelGet" 1352 AccessorKind.Get false returns012
  ]

/-- The rule on the documented code -3: it is listed exactly by the `...Set` functions
that document bounds. -/
def AccessorDoc.followsRule (a : AccessorDoc) : Bool :=
  decide (-3 ∈ a.returns) == (decide (a.kind = AccessorKind.Set) && a.documentsBounds)

/-- Status returned by the most recent call of a log, if there was one. -/
def lastStatus : List (Call × Int) → Option Int
  | [] => none
  | (_, r) :: rest =>
    match lastStatus rest with
    | some s => some s
    | none => some r

/-- A state in which the connection is established: the modelled library after a
first successful `ConnectDevice` from the start of the program. -/
def connectedWorld : World Dll :=
  (ClamirFunctions.ConnectDevice Dll.device (World.initial (Dll.initial [] []))).2

/-- The modelled library in the state `connectedWorld` holds it: connected, every
parameter at its documented default. -/
def connectedDll : Dll := connectedWorld.dll

/-- A header with every field zero, to evaluate image reads at. -/
def blankHeader : ImageHeader :=
  { Power := 0, MeltPoolArea := 0, TrackNum := 0, FrameMax := 0, FrameNum := 0,
    Width := 0, RefWidth := 0, Temperature := 0, LaserStatus := 0, StateMachine := 0,
    IODigitalPortStatus := 0 }

/-- A complete frame on the wire: 60 header integers and 4096 samples. -/
def fullFrame : Arrival :=
  Arrival.Data (List.replicate 60 7) (List.replicate 4096 (-3))

/-- A truncated frame on the wire: the whole header but only 100 samples. -/
def shortFrame : Arrival :=
  Arrival.Data (List.replicate 60 7) (List.replicate 100 (-3))

/-- A header whose `IODigitalPortStatus` is 256, a value of its type `int16_t`. -/
def wideHeader : ImageHeader :=
  { blankHeader with IODigitalPortStatus := 256 }

/-! ## Properties of the wrapper (`ClamirFunctions.cpp`, `ClamirCLR.cpp`) -/

theorem ConnectDevice_fst {D : Type} (dev : Device D) (w : World D) :
    (ClamirFunctions.ConnectDevice dev w).1 = (dev.ConnectCLAMIR w.lIPAddress w.dll).1 := rfl

theorem ConnectDevice_dll {D : Type} (dev : Device D) (w : World D) :
    (ClamirFunctions.ConnectDevice dev w).2.dll = (dev.ConnectCLAMIR w.lIPAddress w.dll).2 := rfl

theorem ConnectDevice_calls {D : Type} (dev : Device D) (w : World D) :
    (ClamirFunctions.ConnectDevice dev w).2.calls
      = w.calls ++ [DeviceCall.ConnectCLAMIR w.lIPAddress] := rfl

theorem DisconnectDevice_calls {D : Type} (dev : Device D) (w : World D) :
    (ClamirFunctions.DisconnectDevice dev w).2.calls
      = w.calls ++ [DeviceCall.DisconnectCLAMIR] := rfl

theorem step_lIPAddress {D : Type} (dev : Device D) (w : World D) (c : Call) :
    (step dev w c).2.lIPAddress = w.lIPAddress := by
  cases c <;> rfl

theorem run_lIPAddress {D : Type} (dev : Device D) (cs : List Call) :
    ∀ w : World D, (run dev w cs).2.lIPAddress = w.lIPAddress := by
  induction cs with
  | nil => intro w; rfl
  | cons c cs ih =>
    intro w
    simp only [run]
    rw [ih, step_lIPAddress]

theorem step_calls_address {D : Type} (dev : Device D) (w : World D) (c : Call) (a : String)
    (hw : ∀ ip, DeviceCall.ConnectCLAMIR ip ∈ w.calls → ip = a) (ha : w.lIPAddress = a) :
    ∀ ip, DeviceCall.ConnectCLAMIR ip ∈ (step dev w c).2.calls → ip = a := by
  intro ip hip
  cases c with
  | ConnectDevice =>
    simp only [step, ConnectDevice_calls, List.mem_append, List.mem_singleton] at hip
    rcases hip with h | h
    · exact hw ip h
    · injection h with h1
      rw [h1, ha]
  | DisconnectDevice =>
    simp only [step, DisconnectDevice_calls, List.mem_append, List.mem_singleton] at hip
    rcases hip with h | h
    · exact hw ip h
    · cases h

theorem run_calls_address {D : Type} (dev : Device D) (a : String) (cs : List Call) :
    ∀ w : World D, (∀ ip, DeviceCall.ConnectCLAMIR ip ∈ w.calls → ip = a) →
      w.lIPAddress = a →
      ∀ ip, DeviceCall.ConnectCLAMIR ip ∈ (run dev w cs).2.calls → ip = a := by
  induction cs with
  | nil => intro w hw _ ip hip; exact hw ip hip
  | cons c cs ih =>
    intro w hw ha ip hip
    simp only [run] at hip
    exact ih (step dev w c).2 (step_calls_address dev w c a hw ha)
      (by rw [step_lIPAddress, ha]) ip hip

theorem issued_append {D : Type} (w w1 : World D) (l : List DeviceCall)
    (h : w1.calls = w.calls ++ l) : issued w w1 = l := by
  simp [issued, h]

theorem DisconnectDevice_fst {D : Type} (dev : Device D) (w : World D) :
    (ClamirFunctions.DisconnectDevice dev w).1 = (dev.DisconnectCLAMIR w.dll).1 := rfl

theorem DisconnectDevice_dll {D : Type} (dev : Device D) (w : World D) :
    (ClamirFunctions.DisconnectDevice dev w).2.dll = (dev.DisconnectCLAMIR w.dll).2 := rfl

theorem ConnectDevice_recording {D : Type} (dev : Device D)
    (v : World (D × List DeviceCall)) :
    (ClamirFunctions.ConnectDevice dev.recording v).2.dll
      = ((dev.ConnectCLAMIR v.lIPAddress v.dll.1).2,
         v.dll.2 ++ [DeviceCall.ConnectCLAMIR v.lIPAddress]) := rfl

theorem DisconnectDevice_recording {D : Type} (dev : Device D)
    (v : World (D × List DeviceCall)) :
    (ClamirFunctions.DisconnectDevice dev.recording v).2.dll
      = ((dev.DisconnectCLAMIR v.dll.1).2, v.dll.2 ++ [DeviceCall.DisconnectCLAMIR]) := rfl

theorem step_recording {D : Type} (dev : Device D) (v : World (D × List DeviceCall))
    (c : Call) (h : v.dll.2 = v.calls) :
    (step dev.recording v c).2.dll.2 = (step dev.recording v c).2.calls := by
  cases c with
  | ConnectDevice =>
    simp only [step, ConnectDevice_recording, ConnectDevice_calls]
    rw [h]
  | DisconnectDevice =>
    simp only [step, DisconnectDevice_recording, DisconnectDevice_calls]
    rw [h]

theorem run_recording {D : Type} (dev : Device D) (cs : List Call) :
    ∀ v : World (D × List DeviceCall), v.dll.2 = v.calls →
      (run dev.recording v cs).2.dll.2 = (run dev.recording v cs).2.calls := by
  induction cs with
  | nil => intro v h; exact h
  | cons c cs ih =>
    intro v h
    simp only [run]
    exact ih (step dev.recording v c).2 (step_recording dev v c h)

theorem Dll.device_honours_contract : HonoursConnectContract Dll.device := by
  intro ip d
  simp only [Dll.device, Dll.ConnectCLAMIR, Dll.IsConnected]
  cases d.connectOutcomes.headD ConnectOutcome.Established <;>
    simp [ConnectOutcome.status]

/-- C1: for every library and every state, `ConnectDevice` returns exactly the status
that `ConnectCLAMIR` produced in that call; so when `ConnectCLAMIR` honours its
documented contract the result is 0, -1 or -2, and it is 0 if and only if the
connections are established afterwards. -/
theorem ConnectDevice_returns_ConnectCLAMIR_status {D : Type} (dev : Device D) (w : World D) :
    (ClamirFunctions.ConnectDevice dev w).1 = (dev.ConnectCLAMIR w.lIPAddress w.dll).1
    ∧ (HonoursConnectContract dev →
        ((ClamirFunctions.ConnectDevice dev w).1 = 0
          ∨ (ClamirFunctions.ConnectDevice dev w).1 = -1
          ∨ (ClamirFunctions.ConnectDevice dev w).1 = -2)
        ∧ ((ClamirFunctions.ConnectDevice dev w).1 = 0
            ↔ dev.IsConnected (ClamirFunctions.ConnectDevice dev w).2.dll = 1)) := by
  refine ⟨rfl, fun h => ?_⟩
  rw [ConnectDevice_fst, ConnectDevice_dll]
  exact h w.lIPAddress w.dll

/-- Witness of C1: the modelled library honours the contract; at program start, with
a first attempt that fails to assign a socket, `ConnectDevice` returns one of the
three documented statuses, and 0 only if connected. -/
theorem ConnectDevice_returns_ConnectCLAMIR_status_witness :
    HonoursConnectContract Dll.device
    ∧ ((ClamirFunctions.ConnectDevice Dll.device
          (World.initial (Dll.initial [ConnectOutcome.AllocationFailed] []))).1 = 0
        ∨ (ClamirFunctions.ConnectDevice Dll.device
          (World.initial (Dll.initial [ConnectOutcome.AllocationFailed] []))).1 = -1
        ∨ (ClamirFunctions.ConnectDevice Dll.device
          (World.initial (Dll.initial [ConnectOutcome.AllocationFailed] []))).1 = -2)
    ∧ ((ClamirFunctions.ConnectDevice Dll.device
          (World.initial (Dll.initial [ConnectOutcome.AllocationFailed] []))).1 = 0
        ↔ Dll.device.IsConnected (ClamirFunctions.ConnectDevice Dll.device
            (World.initial (Dll.initial [ConnectOutcome.AllocationFailed] []))).2.dll = 1) :=
  ⟨Dll.device_honours_contract,
   (ConnectDevice_returns_ConnectCLAMIR_status Dll.device
      (World.initial (Dll.initial [ConnectOutcome.AllocationFailed] []))).2
      Dll.device_honours_contract⟩

/-- C2: in every state reached from the start of the program by any sequence of
`ConnectDevice` / `DisconnectDevice` calls, over any library, `lIPAddress` still
holds "192.168.1.77", the request a further `ConnectDevice` makes is
`ConnectCLAMIR` with that address, and every `ConnectCLAMIR` request made so far
carried that address. The status that `ConnectDevice` returns and the library state
it leaves are those of `ConnectCLAMIR` applied once, with the argument
"192.168.1.77", to the library state reached. Seen from the library side (the
library keeping its own record of what it receives, empty at the start): that
`ConnectDevice` adds to the record one entry, `ConnectCLAMIR` with "192.168.1.77",
and every `ConnectCLAMIR` the library has received carried that address. -/
theorem ConnectDevice_passes_default_address {D : Type} (dev : Device D) (d : D)
    (cs : List Call) :
    (run dev (World.initial d) cs).2.lIPAddress = "192.168.1.77"
    ∧ issued (run dev (World.initial d) cs).2
        (ClamirFunctions.ConnectDevice dev (run dev (World.initial d) cs).2).2
        = [DeviceCall.ConnectCLAMIR "192.168.1.77"]
    ∧ (∀ ip, DeviceCall.ConnectCLAMIR ip ∈
          (ClamirFunctions.ConnectDevice dev (run dev (World.initial d) cs).2).2.calls →
        ip = "192.168.1.77")
    ∧ (ClamirFunctions.ConnectDevice dev (run dev (World.initial d) cs).2).1
        = (dev.ConnectCLAMIR "192.168.1.77" (run dev (World.initial d) cs).2.dll).1
    ∧ (ClamirFunctions.ConnectDevice dev (run dev (World.initial d) cs).2).2.dll
        = (dev.ConnectCLAMIR "192.168.1.77" (run dev (World.initial d) cs).2.dll).2
    ∧ (ClamirFunctions.ConnectDevice dev.recording
          (run dev.recording (World.initial (d, [])) cs).2).2.dll
        = ((dev.ConnectCLAMIR "192.168.1.77"
              (run dev.recording (World.initial (d, [])) cs).2.dll.1).2,
           (run dev.recording (World.initial (d, [])) cs).2.dll.2
             ++ [DeviceCall.ConnectCLAMIR "192.168.1.77"])
    ∧ ∀ ip, DeviceCall.ConnectCLAMIR ip ∈
          (ClamirFunctions.ConnectDevice dev.recording
            (run dev.recording (World.initial (d, [])) cs).2).2.dll.2 →
        ip = "192.168.1.77" := by
  have h1 : ∀ {E : Type} (dv : Device E) (e : E),
      (run dv (World.initial e) cs).2.lIPAddress = "192.168.1.77" := by
    intro E dv e
    rw [run_lIPAddress]; rfl
  have h2 : ∀ {E : Type} (dv : Device E) (e : E) (ip : String),
      DeviceCall.ConnectCLAMIR ip ∈
        (ClamirFunctions.ConnectDevice dv (run dv (World.initial e) cs).2).2.calls →
      ip = "192.168.1.77" := by
    intro E dv e
    exact step_calls_address dv _ Call.ConnectDevice "192.168.1.77"
      (run_calls_address dv "192.168.1.77" cs (World.initial e)
        (fun ip h => by simp [World.initial] at h) rfl)
      (h1 dv e)
  have h3 : (ClamirFunctions.ConnectDevice dev.recording
        (run dev.recording (World.initial (d, [])) cs).2).2.dll.2
      = (ClamirFunctions.ConnectDevice dev.recording
        (run dev.recording (World.initial (d, [])) cs).2).2.calls :=
    step_recording dev _ Call.ConnectDevice (run_recording dev cs (World.initial (d, [])) rfl)
  refine ⟨h1 dev d, ?_, h2 dev d, ?_, ?_, ?_, ?_⟩
  · rw [issued_append _ _ _ (ConnectDevice_calls dev _), h1 dev d]
  · rw [ConnectDevice_fst, h1 dev d]
  · rw [ConnectDevice_dll, h1 dev d]
  · rw [ConnectDevice_recording, h1 dev.recording (d, [])]
  · intro ip hip
    rw [h3] at hip
    exact h2 dev.recording (d, []) ip hip

theorem Dll.IsConnected_eq_one (s : Dll) : Dll.IsConnected s = 1 ↔ s.connected = true := by
  unfold Dll.IsConnected
  cases s.connected <;> simp

theorem Dll.IsConnected_eq_zero (s : Dll) : Dll.IsConnected s = 0 ↔ s.connected = false := by
  unfold Dll.IsConnected
  cases s.connected <;> simp

theorem Dll.connected_after_ConnectDevice (w : World Dll) :
    (ClamirFunctions.ConnectDevice Dll.device w).2.dll.connected = true
      ↔ (ClamirFunctions.ConnectDevice Dll.device w).1 = 0 := by
  rw [ConnectDevice_fst, ConnectDevice_dll]
  simp only [Dll.device, Dll.ConnectCLAMIR]
  cases w.dll.connectOutcomes.headD ConnectOutcome.Established <;>
    simp [ConnectOutcome.status]

theorem Dll.connected_after_DisconnectDevice (w : World Dll) :
    (ClamirFunctions.DisconnectDevice Dll.device w).2.dll.connected = false := rfl

/-- Invariant behind C3: after any calls, a Connected state either follows a
`ConnectDevice` whose most recent instance returned 0, or no `ConnectDevice` was
called and the state was Connected from the outset. -/
theorem Dll.connected_after_run (cs : List Call) :
    ∀ w : World Dll, (run Dll.device w cs).2.dll.connected = true →
      lastConnectStatus (run Dll.device w cs).1 = some 0
      ∨ (lastConnectStatus (run Dll.device w cs).1 = none ∧ w.dll.connected = true) := by
  induction cs with
  | nil => intro w h; exact Or.inr ⟨rfl, h⟩
  | cons c cs ih =>
    intro w h
    simp only [run] at h ⊢
    rcases ih (step Dll.device w c).2 h with h1 | ⟨h1, h2⟩
    · left
      simp [lastConnectStatus, h1]
    · cases c with
      | ConnectDevice =>
        left
        have h3 := (Dll.connected_after_ConnectDevice w).1 h2
        simp only [step] at h1 ⊢
        simp [lastConnectStatus, h1, h3]
      | DisconnectDevice =>
        simp only [step] at h2
        rw [Dll.connected_after_DisconnectDevice] at h2
        cases h2

/-- C3: the connection state is Disconnected at the start of the program; from there
(and from every Disconnected state `w`), after any sequence of `ConnectDevice` and
`DisconnectDevice` calls the state is Connected only if the most recent
`ConnectDevice` returned 0; and from a Disconnected state a `ConnectDevice` that
returns -1 or -2 leaves the state Disconnected. -/
theorem connected_only_after_successful_ConnectDevice :
    (∀ (os : List ConnectOutcome) (ds : List DisconnectOutcome),
        Dll.IsConnected (World.initial (Dll.initial os ds)).dll = 0)
    ∧ (∀ (w : World Dll) (cs : List Call), Dll.IsConnected w.dll = 0 →
        Dll.IsConnected (run Dll.device w cs).2.dll = 1 →
        lastConnectStatus (run Dll.device w cs).1 = some 0)
    ∧ (∀ w : World Dll, Dll.IsConnected w.dll = 0 →
        ((ClamirFunctions.ConnectDevice Dll.device w).1 = -1
          ∨ (ClamirFunctions.ConnectDevice Dll.device w).1 = -2) →
        Dll.IsConnected (ClamirFunctions.ConnectDevice Dll.device w).2.dll = 0) := by
  refine ⟨fun os ds => rfl, ?_, ?_⟩
  · intro w cs h0 h1
    rw [Dll.IsConnected_eq_zero] at h0
    rw [Dll.IsConnected_eq_one] at h1
    rcases Dll.connected_after_run cs w h1 with h | ⟨_, h⟩
    · exact h
    · rw [h0] at h; cases h
  · intro w _ hf
    rw [Dll.IsConnected_eq_zero]
    cases hc : (ClamirFunctions.ConnectDevice Dll.device w).2.dll.connected with
    | false => rfl
    | true =>
      have h := (Dll.connected_after_ConnectDevice w).1 hc
      rw [h] at hf
      rcases hf with hf | hf <;> cases hf

/-- Witness of C3: from the start of the program, with a first attempt that fails to
connect and a second that succeeds, the calls connect, connect end Connected and the
most recent `ConnectDevice` returned 0; and the failed first attempt alone leaves the
state Disconnected. -/
theorem connected_only_after_successful_ConnectDevice_witness :
    Dll.IsConnected (World.initial (Dll.initial [ConnectOutcome.ConnectFailed] [])).dll = 0
    ∧ lastConnectStatus (run Dll.device
        (World.initial (Dll.initial [ConnectOutcome.ConnectFailed] []))
        [Call.ConnectDevice, Call.ConnectDevice]).1 = some 0
    ∧ Dll.IsConnected (ClamirFunctions.ConnectDevice Dll.device
        (World.initial (Dll.initial [ConnectOutcome.ConnectFailed] []))).2.dll = 0 :=
  ⟨rfl,
   connected_only_after_successful_ConnectDevice.2.1
     (World.initial (Dll.initial [ConnectOutcome.ConnectFailed] []))
     [Call.ConnectDevice, Call.ConnectDevice] rfl rfl,
   connected_only_after_successful_ConnectDevice.2.2
     (World.initial (Dll.initial [ConnectOutcome.ConnectFailed] [])) rfl (Or.inr rfl)⟩

/-- C4, as stated, fails: in `connectedWorld` the connection is established, yet the
only request `ConnectDevice` makes (through `ClamirFunctions` and through
`ClamirCLR` alike) is the `ConnectCLAMIR` attempt; no `DisconnectCLAMIR` request
precedes it. -/
theorem ConnectDevice_teardown_counterexample :
    Dll.IsConnected connectedWorld.dll = 1
    ∧ issued connectedWorld (ClamirFunctions.ConnectDevice Dll.device connectedWorld).2
        = [DeviceCall.ConnectCLAMIR "192.168.1.77"]
    ∧ issued connectedWorld (ClamirCLR.ConnectDevice Dll.device connectedWorld).2
        = [DeviceCall.ConnectCLAMIR "192.168.1.77"]
    ∧ DeviceCall.DisconnectCLAMIR ∉
        issued connectedWorld (ClamirFunctions.ConnectDevice Dll.device connectedWorld).2 := by
  refine ⟨rfl, rfl, rfl, ?_⟩
  have h : issued connectedWorld (ClamirFunctions.ConnectDevice Dll.device connectedWorld).2
      = [DeviceCall.ConnectCLAMIR "192.168.1.77"] := rfl
  rw [h]
  simp

/-- C4, amended: in every state, also one in which a connection is established,
`ConnectDevice` (of `ClamirFunctions` and of `ClamirCLR`) makes no `DisconnectCLAMIR`
request: `ConnectCLAMIR` is called on the library as the state holds it, and the
library state afterwards is the one this single `ConnectCLAMIR` call produced. -/
theorem ConnectDevice_leaves_teardown_to_ConnectCLAMIR {D : Type} (dev : Device D)
    (w : World D) :
    DeviceCall.DisconnectCLAMIR ∉ issued w (ClamirFunctions.ConnectDevice dev w).2
    ∧ DeviceCall.DisconnectCLAMIR ∉ issued w (ClamirCLR.ConnectDevice dev w).2
    ∧ (ClamirFunctions.ConnectDevice dev w).2.dll = (dev.ConnectCLAMIR w.lIPAddress w.dll).2
    ∧ (ClamirCLR.ConnectDevice dev w).2.dll = (dev.ConnectCLAMIR w.lIPAddress w.dll).2 := by
  have h : issued w (ClamirFunctions.ConnectDevice dev w).2
      = [DeviceCall.ConnectCLAMIR w.lIPAddress] :=
    issued_append _ _ _ (ConnectDevice_calls dev w)
  have h2 : (ClamirCLR.ConnectDevice dev w).2 = (ClamirFunctions.ConnectDevice dev w).2 := rfl
  refine ⟨?_, ?_, rfl, rfl⟩
  · rw [h]; simp
  · rw [h2, h]; simp

/-- C5: for every prior state, whatever the outcome of `DisconnectCLAMIR`,
`DisconnectDevice` returns that outcome's status (0, -1 or -2) and the connection
state afterwards is Disconnected. -/
theorem DisconnectDevice_leaves_Disconnected (w : World Dll) :
    Dll.IsConnected (ClamirFunctions.DisconnectDevice Dll.device w).2.dll = 0
    ∧ (ClamirFunctions.DisconnectDevice Dll.device w).1
        = (w.dll.disconnectOutcomes.headD DisconnectOutcome.Released).status
    ∧ ((ClamirFunctions.DisconnectDevice Dll.device w).1 = 0
        ∨ (ClamirFunctions.DisconnectDevice Dll.device w).1 = -1
        ∨ (ClamirFunctions.DisconnectDevice Dll.device w).1 = -2) := by
  refine ⟨rfl, rfl, ?_⟩
  have h : (ClamirFunctions.DisconnectDevice Dll.device w).1
      = (w.dll.disconnectOutcomes.headD DisconnectOutcome.Released).status := rfl
  rw [h]
  cases w.dll.disconnectOutcomes.headD DisconnectOutcome.Released <;>
    simp [DisconnectOutcome.status]

/-- C6: over every library and in every state, whatever status comes back (a
failure status included), one `ConnectDevice` adds exactly one request to those made
so far, a `ConnectCLAMIR`, and one `DisconnectDevice` adds exactly one, a
`DisconnectCLAMIR`. The status returned and the library state left are those of
that entry point applied once to the library state the call found: no second
attempt follows a failure, and the attempt is not skipped. Seen from the library
side (the library keeping its own record of what it receives): each call leaves the
library state of one application and the record grown by that one request. -/
theorem one_request_per_call {D : Type} (dev : Device D) (w : World D) :
    (ClamirFunctions.ConnectDevice dev w).2.calls
        = w.calls ++ [DeviceCall.ConnectCLAMIR w.lIPAddress]
    ∧ (ClamirFunctions.DisconnectDevice dev w).2.calls
        = w.calls ++ [DeviceCall.DisconnectCLAMIR]
    ∧ (issued w (ClamirFunctions.ConnectDevice dev w).2).length = 1
    ∧ (issued w (ClamirFunctions.DisconnectDevice dev w).2).length = 1
    ∧ (ClamirFunctions.ConnectDevice dev w).1 = (dev.ConnectCLAMIR w.lIPAddress w.dll).1
    ∧ (ClamirFunctions.ConnectDevice dev w).2.dll = (dev.ConnectCLAMIR w.lIPAddress w.dll).2
    ∧ (ClamirFunctions.DisconnectDevice dev w).1 = (dev.DisconnectCLAMIR w.dll).1
    ∧ (ClamirFunctions.DisconnectDevice dev w).2.dll = (dev.DisconnectCLAMIR w.dll).2
    ∧ (∀ v : World (D × List DeviceCall),
        (ClamirFunctions.ConnectDevice dev.recording v).1
            = (dev.ConnectCLAMIR v.lIPAddress v.dll.1).1
        ∧ (ClamirFunctions.ConnectDevice dev.recording v).2.dll
            = ((dev.ConnectCLAMIR v.lIPAddress v.dll.1).2,
               v.dll.2 ++ [DeviceCall.ConnectCLAMIR v.lIPAddress]))
    ∧ ∀ v : World (D × List DeviceCall),
        (ClamirFunctions.DisconnectDevice dev.recording v).1
            = (dev.DisconnectCLAMIR v.dll.1).1
        ∧ (ClamirFunctions.DisconnectDevice dev.recording v).2.dll
            = ((dev.DisconnectCLAMIR v.dll.1).2,
               v.dll.2 ++ [DeviceCall.DisconnectCLAMIR]) := by
  refine ⟨rfl, rfl, ?_, ?_, rfl, rfl, rfl, rfl, fun v => ⟨rfl, rfl⟩, fun v => ⟨rfl, rfl⟩⟩
  · rw [issued_append _ _ _ (ConnectDevice_calls dev w)]; rfl
  · rw [issued_append _ _ _ (DisconnectDevice_calls dev w)]; rfl

/-! ## Properties of the modelled device library -/

theorem Dll.transport_answered (s : Dll) (hc : s.connected = true) :
    Dll.transport Link.Answered s = none := by
  simp [Dll.transport, hc]

theorem Dll.connected_of_transport {link : Link} {s : Dll}
    (h : Dll.transport link s = none) : s.connected = true ∧ link = Link.Answered := by
  unfold Dll.transport at h
  cases hc : s.connected <;> cases link <;> simp_all

theorem catalog_min_le_max (p : ParamId) : (catalog p).min ≤ (catalog p).max := by
  cases p <;> norm_num [catalog]

theorem Dll.Set_of_inBounds (p : ParamId) (v : ℚ) (s : Dll) (hc : s.connected = true)
    (h1 : (catalog p).min ≤ v) (h2 : v ≤ (catalog p).max) :
    (Dll.Set Link.Answered p v s).1 = CmdStatus.Success := by
  simp [Dll.Set, Dll.transport_answered s hc, Dll.inBounds, h1, h2]

theorem Dll.Set_of_not_inBounds (p : ParamId) (v : ℚ) (s : Dll) (hc : s.connected = true)
    (h : v < (catalog p).min ∨ (catalog p).max < v) :
    (Dll.Set Link.Answered p v s).1 = CmdStatus.OutOfBounds := by
  have hb : Dll.inBounds p v = false := by
    unfold Dll.inBounds
    rcases h with h | h
    · simp [not_le.mpr h]
    · simp [not_le.mpr h]
  simp [Dll.Set, Dll.transport_answered s hc, hb]

/-- C7: for every parameter of the catalog and every Connected state, an answered
`Set` of the documented minimum and of the documented maximum succeeds (status 0),
and an answered `Set` of minimum - 1 and of maximum + 1 is OutOfBounds (status -3). -/
theorem Set_accepts_bounds_and_rejects_beyond (p : ParamId) (s : Dll)
    (hc : s.connected = true) :
    (Dll.Set Link.Answered p (catalog p).min s).1 = CmdStatus.Success
    ∧ (Dll.Set Link.Answered p (catalog p).max s).1 = CmdStatus.Success
    ∧ (Dll.Set Link.Answered p ((catalog p).min - 1) s).1 = CmdStatus.OutOfBounds
    ∧ (Dll.Set Link.Answered p ((catalog p).max + 1) s).1 = CmdStatus.OutOfBounds
    ∧ CmdStatus.Success.wire = 0 ∧ CmdStatus.OutOfBounds.wire = -3 := by
  have h := catalog_min_le_max p
  refine ⟨Dll.Set_of_inBounds p _ s hc le_rfl h, Dll.Set_of_inBounds p _ s hc h le_rfl,
    Dll.Set_of_not_inBounds p _ s hc (Or.inl (by linarith)),
    Dll.Set_of_not_inBounds p _ s hc (Or.inr (by linarith)), rfl, rfl⟩

/-- Witness of C7: the flag parameter EnableROI, range [0, 1], on the connected
library. -/
theorem Set_accepts_bounds_and_rejects_beyond_witness :
    connectedDll.connected = true
    ∧ ((Dll.Set Link.Answered ParamId.EnableROI (catalog ParamId.EnableROI).min
          connectedDll).1 = CmdStatus.Success
      ∧ (Dll.Set Link.Answered ParamId.EnableROI (catalog ParamId.EnableROI).max
          connectedDll).1 = CmdStatus.Success
      ∧ (Dll.Set Link.Answered ParamId.EnableROI ((catalog ParamId.EnableROI).min - 1)
          connectedDll).1 = CmdStatus.OutOfBounds
      ∧ (Dll.Set Link.Answered ParamId.EnableROI ((catalog ParamId.EnableROI).max + 1)
          connectedDll).1 = CmdStatus.OutOfBounds
      ∧ CmdStatus.Success.wire = 0 ∧ CmdStatus.OutOfBounds.wire = -3) :=
  ⟨rfl, Set_accepts_bounds_and_rejects_beyond ParamId.EnableROI connectedDll rfl⟩

theorem catalog_precision_pos (p : ParamId) (q : ℚ) (h : (catalog p).precision = some q) :
    0 < q := by
  cases p <;> simp [catalog] at h <;> rw [← h] <;> norm_num

theorem catalog_precision_of_not_float (p : ParamId) (h : (catalog p).argType ≠ ArgType.float) :
    (catalog p).precision = none := by
  cases p <;> simp [catalog] at h ⊢

theorem Dll.stored_of_no_precision (p : ParamId) (v : ℚ) (h : (catalog p).precision = none) :
    Dll.stored p v = v := by
  simp [Dll.stored, h]

theorem Dll.stored_within_precision (p : ParamId) (v q : ℚ)
    (h : (catalog p).precision = some q) : |Dll.stored p v - v| ≤ q := by
  have hq := catalog_precision_pos p q h
  have h1 : (⌊v / q⌋ : ℚ) ≤ v / q := Int.floor_le _
  have h2 : v / q < ⌊v / q⌋ + 1 := Int.lt_floor_add_one _
  have h3 : (⌊v / q⌋ : ℚ) * q ≤ v := by
    have := mul_le_mul_of_nonneg_right h1 hq.le
    rwa [div_mul_cancel₀ v hq.ne'] at this
  have h4 : v < (⌊v / q⌋ + 1) * q := by
    have := mul_lt_mul_of_pos_right h2 hq
    rwa [div_mul_cancel₀ v hq.ne'] at this
  simp only [Dll.stored, h]
  rw [abs_le]
  constructor <;> nlinarith

theorem Dll.Get_after_Set (p : ParamId) (v : ℚ) (s : Dll)
    (h : (Dll.Set Link.Answered p v s).1 = CmdStatus.Success) :
    Dll.Get Link.Answered p (Dll.Set Link.Answered p v s).2
      = (CmdStatus.Success, some (Dll.stored p v)) := by
  unfold Dll.Set at h ⊢
  cases ht : Dll.transport Link.Answered s with
  | some e =>
    rw [ht] at h
    simp only at h
    have hc : s.connected = true := by
      cases hs : s.connected
      · simp [Dll.transport, hs] at ht
        rw [← ht] at h; cases h
      · rfl
    rw [Dll.transport_answered s hc] at ht
    cases ht
  | none =>
    rw [ht] at h
    simp only at h ⊢
    cases hb : Dll.inBounds p v with
    | false => rw [hb] at h; simp at h
    | true =>
      have hc := (Dll.connected_of_transport ht).1
      have ht2 : Dll.transport Link.Answered
          { s with values := Function.update s.values p (Dll.stored p v) } = none := by
        simp [Dll.transport, hc]
      simp [Dll.Get, ht2]

theorem Dll.ROICoordinatesGet_after_Set (X1 Y1 X2 Y2 : Int) (s : Dll)
    (h : (Dll.ROICoordinatesSet Link.Answered X1 Y1 X2 Y2 s).1 = CmdStatus.Success) :
    Dll.ROICoordinatesGet Link.Answered (Dll.ROICoordinatesSet Link.Answered X1 Y1 X2 Y2 s).2
      = (CmdStatus.Success, some (X1, Y1, X2, Y2)) := by
  cases hs : s.connected with
  | false => simp [Dll.ROICoordinatesSet, Dll.transport, hs] at h
  | true =>
    simp only [Dll.ROICoordinatesSet, Dll.transport_answered s hs] at h ⊢
    split_ifs at h ⊢ with h1 h2
    simp [Dll.ROICoordinatesGet, Dll.transport, hs]

theorem Dll.AutoShutterConfigurationGet_after_Set (e ip d t : Bool) (s : Dll)
    (h : (Dll.AutoShutterConfigurationSet Link.Answered e ip d t s).1 = CmdStatus.Success) :
    Dll.AutoShutterConfigurationGet Link.Answered
        (Dll.AutoShutterConfigurationSet Link.Answered e ip d t s).2
      = (CmdStatus.Success, some (e, ip, d, t)) := by
  cases hs : s.connected with
  | false => simp [Dll.AutoShutterConfigurationSet, Dll.transport, hs] at h
  | true =>
    simp only [Dll.AutoShutterConfigurationSet, Dll.transport_answered s hs] at h ⊢
    split_ifs at h ⊢ with h1
    simp [Dll.AutoShutterConfigurationGet, Dll.transport, hs]

/-- C8: round trip. For every parameter `p` of the catalog and every value `v` that an
answered `Set` accepts, the following answered `Get` succeeds and returns the stored
value, which differs from `v` by at most the declared precision of `p`, and is
exactly `v` when `p` declares none, in particular for every `int16_t` and `int`
(flag) parameter; an accepted `ROICoordinatesSet` is followed by a
`ROICoordinatesGet` with the same X1, Y1, X2, Y2 in that order, and likewise for the
four auto shutter flags; on a Connected library `Set(KI, 500)` succeeds and
`Get(KI)` returns 500. -/
theorem Set_then_Get_round_trip :
    (∀ (p : ParamId) (v : ℚ) (s : Dll),
        (Dll.Set Link.Answered p v s).1 = CmdStatus.Success →
        Dll.Get Link.Answered p (Dll.Set Link.Answered p v s).2
            = (CmdStatus.Success, some (Dll.stored p v))
        ∧ (∀ q, (catalog p).precision = some q → |Dll.stored p v - v| ≤ q)
        ∧ ((catalog p).precision = none → Dll.stored p v = v)
        ∧ ((catalog p).argType ≠ ArgType.float → Dll.stored p v = v))
    ∧ (∀ (X1 Y1 X2 Y2 : Int) (s : Dll),
        (Dll.ROICoordinatesSet Link.Answered X1 Y1 X2 Y2 s).1 = CmdStatus.Success →
        Dll.ROICoordinatesGet Link.Answered
            (Dll.ROICoordinatesSet Link.Answered X1 Y1 X2 Y2 s).2
          = (CmdStatus.Success, some (X1, Y1, X2, Y2)))
    ∧ (∀ (e ip d t : Bool) (s : Dll),
        (Dll.AutoShutterConfigurationSet Link.Answered e ip d t s).1 = CmdStatus.Success →
        Dll.AutoShutterConfigurationGet Link.Answered
            (Dll.AutoShutterConfigurationSet Link.Answered e ip d t s).2
          = (CmdStatus.Success, some (e, ip, d, t)))
    ∧ (∀ s : Dll, s.connected = true →
        (Dll.Set Link.Answered ParamId.KI 500 s).1 = CmdStatus.Success
        ∧ Dll.Get Link.Answered ParamId.KI (Dll.Set Link.Answered ParamId.KI 500 s).2
            = (CmdStatus.Success, some 500)) := by
  refine ⟨fun p v s h => ⟨Dll.Get_after_Set p v s h,
      fun q hq => Dll.stored_within_precision p v q hq,
      fun hn => Dll.stored_of_no_precision p v hn,
      fun hf => Dll.stored_of_no_precision p v (catalog_precision_of_not_float p hf)⟩,
    Dll.ROICoordinatesGet_after_Set, Dll.AutoShutterConfigurationGet_after_Set, ?_⟩
  intro s hc
  have h : (Dll.Set Link.Answered ParamId.KI 500 s).1 = CmdStatus.Success :=
    Dll.Set_of_inBounds ParamId.KI 500 s hc (by norm_num [catalog]) (by norm_num [catalog])
  refine ⟨h, ?_⟩
  rw [Dll.Get_after_Set ParamId.KI 500 s h, Dll.stored_of_no_precision ParamId.KI 500 rfl]

/-- Witness of C8: on the connected library, `Set(KI, 500)` then `Get(KI)` gives 500;
the accepted ROI (2, 2, 61, 61) is read back unchanged. -/
theorem Set_then_Get_round_trip_witness :
    connectedDll.connected = true
    ∧ ((Dll.Set Link.Answered ParamId.KI 500 connectedDll).1 = CmdStatus.Success
      ∧ Dll.Get Link.Answered ParamId.KI (Dll.Set Link.Answered ParamId.KI 500 connectedDll).2
          = (CmdStatus.Success, some 500))
    ∧ Dll.ROICoordinatesGet Link.Answered
          (Dll.ROICoordinatesSet Link.Answered 2 2 61 61 connectedDll).2
        = (CmdStatus.Success, some (2, 2, 61, 61)) :=
  ⟨rfl, Set_then_Get_round_trip.2.2.2 connectedDll rfl,
   Set_then_Get_round_trip.2.1 2 2 61 61 connectedDll (by decide)⟩

/-- C9: on a Connected library, an answered `ROICoordinatesSet` with X1 ≥ X2 or
Y1 ≥ Y2 is InvalidOrdering (status -4) whatever the coordinates are, inside their
bounds or not; with X1 < X2, Y1 < Y2, X1 and Y1 in [1, 62], X2 and Y2 in [2, 63] it
succeeds. -/
theorem ROICoordinatesSet_checks_ordering_first (X1 Y1 X2 Y2 : Int) (s : Dll)
    (hc : s.connected = true) :
    ((X1 ≥ X2 ∨ Y1 ≥ Y2) →
        (Dll.ROICoordinatesSet Link.Answered X1 Y1 X2 Y2 s).1 = CmdStatus.InvalidOrdering)
    ∧ (X1 < X2 → Y1 < Y2 → (1 ≤ X1 ∧ X1 ≤ 62) → (1 ≤ Y1 ∧ Y1 ≤ 62) →
        (2 ≤ X2 ∧ X2 ≤ 63) → (2 ≤ Y2 ∧ Y2 ≤ 63) →
        (Dll.ROICoordinatesSet Link.Answered X1 Y1 X2 Y2 s).1 = CmdStatus.Success)
    ∧ CmdStatus.InvalidOrdering.wire = -4 ∧ CmdStatus.OutOfBounds.wire = -3
    ∧ CmdStatus.Success.wire = 0 := by
  refine ⟨fun h => ?_, fun hx hy h1 h2 h3 h4 => ?_, rfl, rfl, rfl⟩
  · simp only [Dll.ROICoordinatesSet, Dll.transport_answered s hc]
    rw [if_pos h]
  · simp only [Dll.ROICoordinatesSet, Dll.transport_answered s hc]
    rw [if_neg (by omega), if_pos (by omega)]

/-- Witness of C9: on the connected library, (70, 0, 5, 100) is both mis-ordered and
out of bounds and is answered InvalidOrdering, whose status -4 is not the -3 of
OutOfBounds; the ordered, in-bounds (1, 1, 63, 63) succeeds. -/
theorem ROICoordinatesSet_checks_ordering_first_witness :
    connectedDll.connected = true
    ∧ ((70 : Int) ≥ 5 ∨ (0 : Int) ≥ 100)
    ∧ (Dll.ROICoordinatesSet Link.Answered 70 0 5 100 connectedDll).1
        = CmdStatus.InvalidOrdering
    ∧ (Dll.ROICoordinatesSet Link.Answered 1 1 63 63 connectedDll).1 = CmdStatus.Success
    ∧ CmdStatus.InvalidOrdering.wire ≠ CmdStatus.OutOfBounds.wire :=
  ⟨rfl, by decide,
   (ROICoordinatesSet_checks_ordering_first 70 0 5 100 connectedDll rfl).1 (by decide),
   (ROICoordinatesSet_checks_ordering_first 1 1 63 63 connectedDll rfl).2.1
     (by decide) (by decide) (by decide) (by decide) (by decide) (by decide),
   by decide⟩

/-- C10: on a Connected library, for all values of the four flags, an answered
`AutoShutterConfigurationSet` is ModeConflict if and only if flagTemperatureDrift
and flagTimer are both true or both false; with exactly one of the two true it
succeeds, whatever flagEnable and flagEnableInProcess are. -/
theorem AutoShutterConfigurationSet_mode_conflict
    (flagEnable flagEnableInProcess flagTemperatureDrift flagTimer : Bool) (s : Dll)
    (hc : s.connected = true) :
    ((Dll.AutoShutterConfigurationSet Link.Answered flagEnable flagEnableInProcess
          flagTemperatureDrift flagTimer s).1 = CmdStatus.ModeConflict
      ↔ (flagTemperatureDrift = true ∧ flagTimer = true)
        ∨ (flagTemperatureDrift = false ∧ flagTimer = false))
    ∧ ((flagTemperatureDrift = true ∧ flagTimer = false)
        ∨ (flagTemperatureDrift = false ∧ flagTimer = true) →
      (Dll.AutoShutterConfigurationSet Link.Answered flagEnable flagEnableInProcess
          flagTemperatureDrift flagTimer s).1 = CmdStatus.Success) := by
  simp only [Dll.AutoShutterConfigurationSet, Dll.transport_answered s hc]
  cases flagTemperatureDrift <;> cases flagTimer <;> simp

/-- Witness of C10: on the connected library, timer mode alone with both enable flags
set succeeds, and both modes together are a ModeConflict. -/
theorem AutoShutterConfigurationSet_mode_conflict_witness :
    connectedDll.connected = true
    ∧ (Dll.AutoShutterConfigurationSet Link.Answered true true false true connectedDll).1
        = CmdStatus.Success
    ∧ (Dll.AutoShutterConfigurationSet Link.Answered false false true true connectedDll).1
        = CmdStatus.ModeConflict :=
  ⟨rfl,
   (AutoShutterConfigurationSet_mode_conflict true true false true connectedDll rfl).2
     (Or.inr ⟨rfl, rfl⟩),
   (AutoShutterConfigurationSet_mode_conflict false false true true connectedDll rfl).1.2
     (Or.inl ⟨rfl, rfl⟩)⟩

/-! ## Status values, globals and the managed wrapper -/

/-- C14, as stated, fails: with a first attempt that fails to connect, `ConnectCLAMIR`
produces the status -2 and `ConnectDevice` (of `ClamirFunctions` and of `ClamirCLR`)
hands that same integer to its caller; likewise `DisconnectDevice` hands on the -1
of a failed close. -/
theorem raw_status_reaches_caller_counterexample :
    (Dll.device.ConnectCLAMIR "192.168.1.77"
        (Dll.initial [ConnectOutcome.ConnectFailed] [])).1 = -2
    ∧ (ClamirFunctions.ConnectDevice Dll.device
        (World.initial (Dll.initial [ConnectOutcome.ConnectFailed] []))).1 = -2
    ∧ (ClamirCLR.ConnectDevice Dll.device
        (World.initial (Dll.initial [ConnectOutcome.ConnectFailed] []))).1 = -2
    ∧ (Dll.device.DisconnectCLAMIR (Dll.initial [] [DisconnectOutcome.CloseFailed])).1 = -1
    ∧ (ClamirFunctions.DisconnectDevice Dll.device
        (World.initial (Dll.initial [] [DisconnectOutcome.CloseFailed]))).1 = -1
    ∧ (ClamirCLR.DisconnectDevice Dll.device
        (World.initial (Dll.initial [] [DisconnectOutcome.CloseFailed]))).1 = -1 :=
  ⟨rfl, rfl, rfl, rfl, rfl, rfl⟩

/-- C14, amended: over every library and in every state, `ConnectDevice` and
`DisconnectDevice`, of `ClamirFunctions` and of `ClamirCLR`, return to their caller
the `int` status of the device call itself, whatever integer it is. -/
theorem wrapper_returns_raw_status {D : Type} (dev : Device D) (w : World D) :
    (ClamirFunctions.ConnectDevice dev w).1 = (dev.ConnectCLAMIR w.lIPAddress w.dll).1
    ∧ (ClamirFunctions.DisconnectDevice dev w).1 = (dev.DisconnectCLAMIR w.dll).1
    ∧ (ClamirCLR.ConnectDevice dev w).1 = (dev.ConnectCLAMIR w.lIPAddress w.dll).1
    ∧ (ClamirCLR.DisconnectDevice dev w).1 = (dev.DisconnectCLAMIR w.dll).1 :=
  ⟨rfl, rfl, rfl, rfl⟩

/-- C15, as stated, fails: at program start the globals are (1, "192.168.1.77"); after
a successful `ConnectDevice` they are (0, "192.168.1.77"), so the process-wide state
after the call is not the state before it. -/
theorem globals_change_counterexample :
    (World.initial (Dll.initial [] [])).globals = (1, "192.168.1.77")
    ∧ (ClamirFunctions.ConnectDevice Dll.device
        (World.initial (Dll.initial [] []))).2.globals = (0, "192.168.1.77")
    ∧ (ClamirFunctions.ConnectDevice Dll.device (World.initial (Dll.initial [] []))).2.globals
        ≠ (World.initial (Dll.initial [] [])).globals := by
  refine ⟨rfl, rfl, ?_⟩
  have h : (ClamirFunctions.ConnectDevice Dll.device
      (World.initial (Dll.initial [] []))).2.globals = (0, "192.168.1.77") := rfl
  have h0 : (World.initial (Dll.initial [] [])).globals = (1, "192.168.1.77") := rfl
  rw [h, h0]
  intro he
  injection he with h1 _
  cases h1

/-- C15, amended: each call returns its result directly and also stores it in the
process-wide global `connection_result`; `lIPAddress` is left as it was; so the
globals after the call equal the globals before it exactly when the returned status
equals the status stored before. -/
theorem call_overwrites_connection_result {D : Type} (dev : Device D) (w : World D) :
    (ClamirFunctions.ConnectDevice dev w).2.connection_result
        = (ClamirFunctions.ConnectDevice dev w).1
    ∧ (ClamirFunctions.DisconnectDevice dev w).2.connection_result
        = (ClamirFunctions.DisconnectDevice dev w).1
    ∧ (ClamirFunctions.ConnectDevice dev w).2.lIPAddress = w.lIPAddress
    ∧ (ClamirFunctions.DisconnectDevice dev w).2.lIPAddress = w.lIPAddress
    ∧ ((ClamirFunctions.ConnectDevice dev w).2.globals = w.globals
        ↔ (ClamirFunctions.ConnectDevice dev w).1 = w.connection_result)
    ∧ ((ClamirFunctions.DisconnectDevice dev w).2.globals = w.globals
        ↔ (ClamirFunctions.DisconnectDevice dev w).1 = w.connection_result) := by
  refine ⟨rfl, rfl, rfl, rfl, ?_, ?_⟩
  · simp [World.globals, ClamirFunctions.ConnectDevice]
  · simp [World.globals, ClamirFunctions.DisconnectDevice]

/-- C16: every method of `ClamirCLR` returns the value of the `ClamirFunctions` method of
the same name on the same arguments; for `ConnectDevice` and `DisconnectDevice`
the state afterwards, with the library state and the record of device requests, is
the same too. `F` is the type of `float` with its product and quotient. -/
theorem ClamirCLR_forwards_to_ClamirFunctions {F D : Type} [Mul F] [Div F] (a b : Int)
    (x y : F) (dev : Device D) (w : World D) :
    ClamirCLR.Add a b = ClamirFunctions.Add a b
    ∧ ClamirCLR.Subtract a b = ClamirFunctions.Subtract a b
    ∧ ClamirCLR.Multiply x y = ClamirFunctions.Multiply x y
    ∧ ClamirCLR.Divide x y = ClamirFunctions.Divide x y
    ∧ ClamirCLR.ConnectDevice dev w = ClamirFunctions.ConnectDevice dev w
    ∧ ClamirCLR.DisconnectDevice dev w = ClamirFunctions.DisconnectDevice dev w
    ∧ issued w (ClamirCLR.ConnectDevice dev w).2
        = issued w (ClamirFunctions.ConnectDevice dev w).2
    ∧ issued w (ClamirCLR.DisconnectDevice dev w).2
        = issued w (ClamirFunctions.DisconnectDevice dev w).2 :=
  ⟨rfl, rfl, rfl, rfl, rfl, rfl, rfl, rfl⟩

/-! ## Image reads -/

theorem completeFrame_iff (rawHeader samples : List Int) :
    completeFrame rawHeader samples = true
      ↔ rawHeader.length = 60 ∧ samples.length = 4096
        ∧ (∀ x ∈ rawHeader, IsInt32 x) ∧ (∀ x ∈ samples, IsInt16 x) := by
  simp [completeFrame, and_assoc]

theorem Dll.GetImageRawHeader_ok {a : Arrival} {s : Dll} {h px : List Int}
    (hr : Dll.GetImageRawHeader a s = Except.ok (h, px)) :
    s.connected = true ∧ a = Arrival.Data h px ∧ completeFrame h px = true := by
  unfold Dll.GetImageRawHeader at hr
  cases hc : s.connected with
  | false => simp [hc] at hr
  | true =>
    simp only [hc, if_true] at hr
    cases a with
    | Data h1 px1 =>
      simp only at hr
      split_ifs at hr with hf
      injection hr with hr
      injection hr with h1e h2e
      subst h1e; subst h2e
      exact ⟨rfl, rfl, hf⟩
    | Nothing => simp at hr
    | Fault => simp at hr
    | Closed => simp at hr

theorem Dll.GetImage_ok {decode : List Int → ImageHeader} {a : Arrival} {s : Dll}
    {hd : ImageHeader} {px : List Int}
    (hr : Dll.GetImage decode a s = Except.ok (hd, px)) :
    ∃ h, Dll.GetImageRawHeader a s = Except.ok (h, px) ∧ hd = decode h := by
  unfold Dll.GetImage at hr
  cases hraw : Dll.GetImageRawHeader a s with
  | error e => rw [hraw] at hr; simp at hr
  | ok r =>
    obtain ⟨h, px1⟩ := r
    rw [hraw] at hr
    simp only at hr
    injection hr with hr
    injection hr with h1e h2e
    subst h2e
    exact ⟨h, rfl, h1e.symm⟩

/-- C11: in every state in which no connection is established, whatever reaches the
image channel, `GetImage` ends in ConnectionClosed, status -3, never in success with
an image; the state at the start and the state after any `DisconnectDevice` are
such states. -/
theorem GetImage_without_connection (decode : List Int → ImageHeader) (a : Arrival)
    (s : Dll) (h : s.connected = false) :
    Dll.GetImage decode a s = Except.error ImgError.ConnectionClosed
    ∧ (imgStatus (Dll.GetImage decode a s) = -3 ∨ imgStatus (Dll.GetImage decode a s) = -2)
    ∧ imgStatus (Dll.GetImage decode a s) ≠ 0
    ∧ (∀ hd px, Dll.GetImage decode a s ≠ Except.ok (hd, px))
    ∧ (∀ os ds, (Dll.initial os ds).connected = false)
    ∧ (∀ w : World Dll, (ClamirFunctions.DisconnectDevice Dll.device w).2.dll.connected = false) := by
  have h1 : Dll.GetImage decode a s = Except.error ImgError.ConnectionClosed := by
    simp [Dll.GetImage, Dll.GetImageRawHeader, h]
  refine ⟨h1, ?_, ?_, ?_, fun _ _ => rfl, fun _ => rfl⟩
  · left; rw [h1]; rfl
  · rw [h1]; decide
  · intro hd px; rw [h1]; simp

/-- Witness of C11: at the start of the program no connection is established, and
`GetImage` ends in ConnectionClosed even when a complete frame is on the wire. -/
theorem GetImage_without_connection_witness :
    (Dll.initial [] []).connected = false
    ∧ Dll.GetImage (fun _ => blankHeader) fullFrame (Dll.initial [] [])
        = Except.error ImgError.ConnectionClosed
    ∧ imgStatus (Dll.GetImage (fun _ => blankHeader) fullFrame (Dll.initial [] [])) ≠ 0 :=
  ⟨rfl,
   (GetImage_without_connection (fun _ => blankHeader) fullFrame (Dll.initial [] []) rfl).1,
   (GetImage_without_connection (fun _ => blankHeader) fullFrame (Dll.initial [] [])
      rfl).2.2.1⟩

theorem Dll.GetImageRawHeader_short (h px : List Int) (s : Dll) (hc : s.connected = true)
    (hs : h.length ≠ 60 ∨ px.length ≠ 4096) :
    Dll.GetImageRawHeader (Arrival.Data h px) s = Except.error ImgError.CommunicationError := by
  have hf : completeFrame h px = false := by
    cases hcf : completeFrame h px with
    | false => rfl
    | true =>
      have := (completeFrame_iff h px).1 hcf
      rcases hs with hs | hs
      · exact absurd this.1 hs
      · exact absurd this.2.1 hs
  simp [Dll.GetImageRawHeader, hc, hf]

/-- C12: `GetImageRawHeader` and `GetImage` succeed only when a complete frame arrived,
and the buffers they return are then that frame: a raw header of exactly 60
integers (for `GetImage`, its decode) and exactly 4096 samples, each a 16-bit value;
on a Connected library, data with a header of other than 60 integers or with other
than 4096 samples ends in CommunicationError (status -2), and a read that fails
returns no buffer at all. -/
theorem image_reads_return_complete_frames_only (decode : List Int → ImageHeader)
    (a : Arrival) (s : Dll) :
    (∀ h px, Dll.GetImageRawHeader a s = Except.ok (h, px) →
        a = Arrival.Data h px ∧ h.length = 60 ∧ px.length = 4096
        ∧ (∀ x ∈ px, IsInt16 x))
    ∧ (∀ hd px, Dll.GetImage decode a s = Except.ok (hd, px) →
        ∃ h, a = Arrival.Data h px ∧ hd = decode h ∧ h.length = 60 ∧ px.length = 4096
          ∧ (∀ x ∈ px, IsInt16 x))
    ∧ (∀ h px, a = Arrival.Data h px → s.connected = true →
        (h.length ≠ 60 ∨ px.length ≠ 4096) →
        Dll.GetImageRawHeader a s = Except.error ImgError.CommunicationError
        ∧ Dll.GetImage decode a s = Except.error ImgError.CommunicationError
        ∧ imgStatus (Dll.GetImage decode a s) = -2)
    ∧ (imgStatus (Dll.GetImageRawHeader a s) = 0 →
        ∃ h px, Dll.GetImageRawHeader a s = Except.ok (h, px))
    ∧ (imgStatus (Dll.GetImage decode a s) = 0 →
        ∃ hd px, Dll.GetImage decode a s = Except.ok (hd, px)) := by
  refine ⟨?_, ?_, ?_, ?_, ?_⟩
  · intro h px hr
    obtain ⟨_, ha, hf⟩ := Dll.GetImageRawHeader_ok hr
    obtain ⟨h1, h2, _, h4⟩ := (completeFrame_iff h px).1 hf
    exact ⟨ha, h1, h2, h4⟩
  · intro hd px hr
    obtain ⟨h, hraw, hdec⟩ := Dll.GetImage_ok hr
    obtain ⟨_, ha, hf⟩ := Dll.GetImageRawHeader_ok hraw
    obtain ⟨h1, h2, _, h4⟩ := (completeFrame_iff h px).1 hf
    exact ⟨h, ha, hdec, h1, h2, h4⟩
  · intro h px ha hc hs
    subst ha
    have hraw := Dll.GetImageRawHeader_short h px s hc hs
    have hg : Dll.GetImage decode (Arrival.Data h px) s
        = Except.error ImgError.CommunicationError := by
      simp [Dll.GetImage, hraw]
    exact ⟨hraw, hg, by rw [hg]; rfl⟩
  · intro h0
    cases hr : Dll.GetImageRawHeader a s with
    | ok r => exact ⟨r.1, r.2, rfl⟩
    | error e => rw [hr] at h0; cases e <;> simp [imgStatus, ImgError.wire] at h0
  · intro h0
    cases hr : Dll.GetImage decode a s with
    | ok r => exact ⟨r.1, r.2, rfl⟩
    | error e => rw [hr] at h0; cases e <;> simp [imgStatus, ImgError.wire] at h0

theorem fullFrame_complete :
    completeFrame (List.replicate 60 7) (List.replicate 4096 (-3)) = true := by
  rw [completeFrame_iff]
  refine ⟨List.length_replicate _ _, List.length_replicate _ _, ?_, ?_⟩
  · intro x hx
    rw [List.eq_of_mem_replicate hx]
    decide
  · intro x hx
    rw [List.eq_of_mem_replicate hx]
    decide

theorem Dll.GetImageRawHeader_fullFrame :
    Dll.GetImageRawHeader fullFrame connectedDll
      = Except.ok (List.replicate 60 7, List.replicate 4096 (-3)) := by
  have hc : connectedDll.connected = true := rfl
  simp only [Dll.GetImageRawHeader, fullFrame, hc, if_true, fullFrame_complete]

/-- Witness of C12: on the connected library a frame cut off after 100 samples ends in
CommunicationError, and the raw read of a complete frame, whose status is 0, returns
its buffers. -/
theorem image_reads_return_complete_frames_only_witness :
    connectedDll.connected = true
    ∧ Dll.GetImage (fun _ => blankHeader) shortFrame connectedDll
        = Except.error ImgError.CommunicationError
    ∧ imgStatus (Dll.GetImageRawHeader fullFrame connectedDll) = 0
    ∧ ∃ h px, Dll.GetImageRawHeader fullFrame connectedDll = Except.ok (h, px) :=
  ⟨rfl,
   ((image_reads_return_complete_frames_only (fun _ => blankHeader) shortFrame
      connectedDll).2.2.1 (List.replicate 60 7) (List.replicate 100 (-3)) rfl rfl
      (Or.inr (by simp))).2.1,
   by rw [Dll.GetImageRawHeader_fullFrame]; rfl,
   (image_reads_return_complete_frames_only (fun _ => blankHeader) fullFrame
      connectedDll).2.2.2.1 (by rw [Dll.GetImageRawHeader_fullFrame]; rfl)⟩

/-! ## Capture file layout -/

theorem bytesLE_length (w : Nat) : ∀ v : Int, (bytesLE w v).length = w := by
  induction w with
  | zero => intro v; rfl
  | succ w ih => intro v; simp [bytesLE, ih]

theorem intBytes_length (order : ByteOrder) (w : Nat) (v : Int) :
    (intBytes order w v).length = w := by
  cases order <;> simp [intBytes, bytesLE_length]

theorem signedLE_bytesLE_two (v : Int) (hv : IsInt16 v) : signedLE (bytesLE 2 v) = v := by
  unfold IsInt16 at hv
  simp only [bytesLE, signedLE, unsignedLE, List.length_cons, List.length_nil]
  split_ifs with h <;> push_cast <;> omega

theorem signedLE_bytesLE_four (v : Int) (hv : IsInt32 v) : signedLE (bytesLE 4 v) = v := by
  unfold IsInt32 at hv
  simp only [bytesLE, signedLE, unsignedLE, List.length_cons, List.length_nil]
  split_ifs with h <;> push_cast <;> omega

theorem readInt_intBytes (order : ByteOrder) (w : Nat) (v : Int) (rest : List Nat)
    (hv : signedLE (bytesLE w v) = v) :
    readInt order w (intBytes order w v ++ rest) 0 = v := by
  have hlen : (intBytes order w v).length = w := intBytes_length order w v
  have ht : ((intBytes order w v ++ rest).drop 0).take w = intBytes order w v := by
    rw [List.drop_zero, List.take_append_of_le_length (le_of_eq hlen.symm),
      List.take_of_length_le (le_of_eq hlen)]
  cases order with
  | LittleEndian => simp only [readInt, ht]; simpa [intBytes] using hv
  | BigEndian => simp only [readInt, ht]; simpa [intBytes] using hv

theorem length_flatMap_intBytes (order : ByteOrder) (w : Nat) (l : List Int) :
    (l.flatMap (intBytes order w)).length = w * l.length := by
  induction l with
  | nil => simp
  | cons a l ih =>
    rw [List.flatMap_cons, List.length_append, ih, intBytes_length, List.length_cons]
    ring

theorem readInt_drop (order : ByteOrder) (w : Nat) (file : List Nat) (k off : Nat) :
    readInt order w (file.drop k) off = readInt order w file (k + off) := by
  cases order <;> simp [readInt, List.drop_drop]

/-- Reading entry `i` of a run of `w`-byte integers: the bytes at offset `w * i` stand
for the `i`-th integer, whatever follows the run. -/
theorem readInt_flatMap (order : ByteOrder) (w : Nat) (rest : List Nat) (l : List Int)
    (hl : ∀ x ∈ l, signedLE (bytesLE w x) = x) :
    ∀ (i : Nat) (x : Int), l[i]? = some x →
      readInt order w (l.flatMap (intBytes order w) ++ rest) (w * i) = x := by
  induction l with
  | nil => intro i x hx; simp at hx
  | cons a l ih =>
    intro i x hx
    rw [List.flatMap_cons, List.append_assoc]
    cases i with
    | zero =>
      simp only [List.getElem?_cons_zero, Option.some.injEq] at hx
      subst hx
      exact readInt_intBytes order w a _ (hl a (List.mem_cons_self _ _))
    | succ i =>
      simp only [List.getElem?_cons_succ] at hx
      have h1 := ih (fun y hy => hl y (List.mem_cons_of_mem _ hy)) i x hx
      have h2 : w * (i + 1) = (intBytes order w a).length + w * i := by
        rw [intBytes_length]; ring
      rw [h2, ← readInt_drop, List.drop_left]
      exact h1

/-- C13: for every frame `GetImageRawHeader` returns, in either byte order, the raw
header and the pixel buffer written verbatim are 240 + 8192 = 8432 bytes; the
4 bytes at offset 4 * i stand for header integer i (i < 60) and the 2 bytes at
offset 240 + 2 * j stand for sample j (j < 4096), each value unchanged. -/
theorem capture_layout (order : ByteOrder) (a : Arrival) (s : Dll) (h px : List Int)
    (hr : Dll.GetImageRawHeader a s = Except.ok (h, px)) :
    (captureBytes order h px).length = 8432
    ∧ (h.flatMap (intBytes order 4)).length = 240
    ∧ (px.flatMap (intBytes order 2)).length = 8192
    ∧ (∀ i, i < 60 → h[i]? = some (readInt order 4 (captureBytes order h px) (4 * i)))
    ∧ (∀ j, j < 4096 →
        px[j]? = some (readInt order 2 (captureBytes order h px) (240 + 2 * j))) := by
  obtain ⟨_, _, hf⟩ := Dll.GetImageRawHeader_ok hr
  obtain ⟨h1, h2, h3, h4⟩ := (completeFrame_iff h px).1 hf
  have hH : (h.flatMap (intBytes order 4)).length = 240 := by
    rw [length_flatMap_intBytes, h1]
  have hP : (px.flatMap (intBytes order 2)).length = 8192 := by
    rw [length_flatMap_intBytes, h2]
  refine ⟨?_, hH, hP, ?_, ?_⟩
  · rw [captureBytes, List.length_append, hH, hP]
  · intro i hi
    have hi1 : i < h.length := by rw [h1]; exact hi
    rw [List.getElem?_eq_getElem hi1]
    exact congrArg some (readInt_flatMap order 4 _ h
      (fun x hx => signedLE_bytesLE_four x (h3 x hx)) i _
      (List.getElem?_eq_getElem hi1)).symm
  · intro j hj
    have hj1 : j < px.length := by rw [h2]; exact hj
    rw [List.getElem?_eq_getElem hj1]
    have hread : readInt order 2 (captureBytes order h px) (240 + 2 * j)
        = readInt order 2 (px.flatMap (intBytes order 2) ++ []) (2 * j) := by
      rw [captureBytes, ← readInt_drop, List.drop_left' hH, List.append_nil]
    rw [hread]
    exact congrArg some (readInt_flatMap order 2 [] px
      (fun x hx => signedLE_bytesLE_two x (h4 x hx)) j _
      (List.getElem?_eq_getElem hj1)).symm

/-- Witness of C13: the complete frame read on the connected library, written least
significant byte first. -/
theorem capture_layout_witness :
    Dll.GetImageRawHeader fullFrame connectedDll
        = Except.ok (List.replicate 60 7, List.replicate 4096 (-3))
    ∧ (captureBytes ByteOrder.LittleEndian (List.replicate 60 7)
          (List.replicate 4096 (-3))).length = 8432
    ∧ (List.replicate 4096 (-3 : Int))[4095]?
        = some (readInt ByteOrder.LittleEndian 2
            (captureBytes ByteOrder.LittleEndian (List.replicate 60 7)
              (List.replicate 4096 (-3))) (240 + 2 * 4095)) :=
  ⟨Dll.GetImageRawHeader_fullFrame,
   (capture_layout ByteOrder.LittleEndian fullFrame connectedDll _ _
      Dll.GetImageRawHeader_fullFrame).1,
   (capture_layout ByteOrder.LittleEndian fullFrame connectedDll _ _
      Dll.GetImageRawHeader_fullFrame).2.2.2.2 4095 (by decide)⟩

/-! ## Status codes and error tags -/

theorem Dll.Set_status (link : Link) (p : ParamId) (v : ℚ) (s : Dll) :
    (Dll.Set link p v s).1 = CmdStatus.Success ∨ (Dll.Set link p v s).1 = CmdStatus.Timeout
    ∨ (Dll.Set link p v s).1 = CmdStatus.CommunicationError
    ∨ (Dll.Set link p v s).1 = CmdStatus.OutOfBounds := by
  unfold Dll.Set Dll.transport
  cases s.connected <;> cases link <;>
    first | (simp; done) | (simp; split_ifs <;> simp)

theorem Dll.ROICoordinatesSet_status (link : Link) (X1 Y1 X2 Y2 : Int) (s : Dll) :
    (Dll.ROICoordinatesSet link X1 Y1 X2 Y2 s).1 = CmdStatus.Success
    ∨ (Dll.ROICoordinatesSet link X1 Y1 X2 Y2 s).1 = CmdStatus.Timeout
    ∨ (Dll.ROICoordinatesSet link X1 Y1 X2 Y2 s).1 = CmdStatus.CommunicationError
    ∨ (Dll.ROICoordinatesSet link X1 Y1 X2 Y2 s).1 = CmdStatus.OutOfBounds
    ∨ (Dll.ROICoordinatesSet link X1 Y1 X2 Y2 s).1 = CmdStatus.InvalidOrdering := by
  unfold Dll.ROICoordinatesSet Dll.transport
  cases s.connected <;> cases link <;>
    first | (simp; done) | (simp; split_ifs <;> simp)

theorem Dll.AutoShutterConfigurationSet_status (link : Link) (e ip d t : Bool) (s : Dll) :
    (Dll.AutoShutterConfigurationSet link e ip d t s).1 = CmdStatus.Success
    ∨ (Dll.AutoShutterConfigurationSet link e ip d t s).1 = CmdStatus.Timeout
    ∨ (Dll.AutoShutterConfigurationSet link e ip d t s).1 = CmdStatus.CommunicationError
    ∨ (Dll.AutoShutterConfigurationSet link e ip d t s).1 = CmdStatus.ModeConflict := by
  unfold Dll.AutoShutterConfigurationSet Dll.transport
  cases s.connected <;> cases link <;>
    first | (simp; done) | (simp; split_ifs <;> simp)

/-- C17, as stated, fails: the status of ModeConflict is -3, the status of
OutOfBounds; on the connected library `AutoShutterConfigurationSet` with both modes
set and `Set(KI, 30001)` end in different tags that travel as the same integer. -/
theorem ModeConflict_code_counterexample :
    CmdStatus.ModeConflict.wire = -3
    ∧ CmdStatus.OutOfBounds.wire = -3
    ∧ (Dll.AutoShutterConfigurationSet Link.Answered false false true true connectedDll).1
        = CmdStatus.ModeConflict
    ∧ (Dll.Set Link.Answered ParamId.KI 30001 connectedDll).1 = CmdStatus.OutOfBounds
    ∧ (Dll.AutoShutterConfigurationSet Link.Answered false false true true connectedDll).1.wire
        = (Dll.Set Link.Answered ParamId.KI 30001 connectedDll).1.wire := by
  have h1 : (Dll.AutoShutterConfigurationSet Link.Answered false false true true
      connectedDll).1 = CmdStatus.ModeConflict := rfl
  have h2 : (Dll.Set Link.Answered ParamId.KI 30001 connectedDll).1 = CmdStatus.OutOfBounds :=
    Dll.Set_of_not_inBounds ParamId.KI 30001 connectedDll rfl
      (Or.inr (by norm_num [catalog]))
  exact ⟨rfl, rfl, h1, h2, by rw [h1, h2]; rfl⟩

/-- C17, amended: `AutoShutterConfigurationSet` reports ModeConflict with status -3,
which differs from the codes of Success, Timeout, CommunicationError and
InvalidOrdering and equals the code of OutOfBounds; the mapping from wire status to
error tag tells them apart by the command family: applied to the status of any
`AutoShutterConfigurationSet`, `Set` or `ROICoordinatesSet` with the family of that
command it gives back the command's own tag, so -3 is ModeConflict for the auto
shutter configuration and OutOfBounds elsewhere. -/
theorem ModeConflict_told_apart_by_family :
    CmdStatus.ModeConflict.wire = -3
    ∧ CmdStatus.ModeConflict.wire = CmdStatus.OutOfBounds.wire
    ∧ CmdStatus.ModeConflict.wire ≠ CmdStatus.Success.wire
    ∧ CmdStatus.ModeConflict.wire ≠ CmdStatus.Timeout.wire
    ∧ CmdStatus.ModeConflict.wire ≠ CmdStatus.CommunicationError.wire
    ∧ CmdStatus.ModeConflict.wire ≠ CmdStatus.InvalidOrdering.wire
    ∧ errorTag Family.AutoShutterConfiguration (-3) = some CmdStatus.ModeConflict
    ∧ errorTag Family.Parameter (-3) = some CmdStatus.OutOfBounds
    ∧ errorTag Family.ROICoordinates (-3) = some CmdStatus.OutOfBounds
    ∧ (∀ (link : Link) (e ip d t : Bool) (s : Dll),
        errorTag Family.AutoShutterConfiguration
            (Dll.AutoShutterConfigurationSet link e ip d t s).1.wire
          = some (Dll.AutoShutterConfigurationSet link e ip d t s).1)
    ∧ (∀ (link : Link) (p : ParamId) (v : ℚ) (s : Dll),
        errorTag Family.Parameter (Dll.Set link p v s).1.wire = some (Dll.Set link p v s).1)
    ∧ (∀ (link : Link) (X1 Y1 X2 Y2 : Int) (s : Dll),
        errorTag Family.ROICoordinates (Dll.ROICoordinatesSet link X1 Y1 X2 Y2 s).1.wire
          = some (Dll.ROICoordinatesSet link X1 Y1 X2 Y2 s).1) := by
  refine ⟨rfl, rfl, by decide, by decide, by decide, by decide, rfl, rfl, rfl, ?_, ?_, ?_⟩
  · intro link e ip d t s
    rcases Dll.AutoShutterConfigurationSet_status link e ip d t s with h | h | h | h <;>
      rw [h] <;> rfl
  · intro link p v s
    rcases Dll.Set_status link p v s with h | h | h | h <;> rw [h] <;> rfl
  · intro link X1 Y1 X2 Y2 s
    rcases Dll.ROICoordinatesSet_status link X1 Y1 X2 Y2 s with h | h | h | h | h <;>
      rw [h] <;> rfl

/-! ## Bias voltage, port flags, paired limits -/

theorem Dll.stored_BiasVoltage (v : ℚ) :
    Dll.stored ParamId.BiasVoltage v = (⌊v * 2 ^ 14⌋ : ℚ) / 2 ^ 14 := by
  simp only [Dll.stored, catalog]
  rw [one_div, div_inv_eq_mul, mul_inv_eq_iff_eq_mul₀ (by norm_num)]
  rw [div_mul_cancel₀ _ (by norm_num : (2 : ℚ) ^ 14 ≠ 0)]

/-- C18: for every bias voltage `v` with 1 ≤ v ≤ 3, on a Connected library an answered
`Set` of the bias voltage succeeds and the following answered `Get` returns a value
that is an integer multiple of 1/2^14, lies in [1, 3] and is within 1/2^14 of `v`;
a `v` that is itself such a multiple is returned unchanged. -/
theorem BiasVoltage_is_quantized (v : ℚ) (s : Dll) (hc : s.connected = true)
    (h1 : 1 ≤ v) (h3 : v ≤ 3) :
    (Dll.Set Link.Answered ParamId.BiasVoltage v s).1 = CmdStatus.Success
    ∧ Dll.Get Link.Answered ParamId.BiasVoltage (Dll.Set Link.Answered ParamId.BiasVoltage v s).2
        = (CmdStatus.Success, some (Dll.stored ParamId.BiasVoltage v))
    ∧ (∃ k : ℤ, Dll.stored ParamId.BiasVoltage v = (k : ℚ) / 2 ^ 14)
    ∧ 1 ≤ Dll.stored ParamId.BiasVoltage v
    ∧ Dll.stored ParamId.BiasVoltage v ≤ 3
    ∧ |Dll.stored ParamId.BiasVoltage v - v| ≤ 1 / 2 ^ 14
    ∧ ((∃ k : ℤ, v = (k : ℚ) / 2 ^ 14) → Dll.stored ParamId.BiasVoltage v = v) := by
  have hset : (Dll.Set Link.Answered ParamId.BiasVoltage v s).1 = CmdStatus.Success :=
    Dll.Set_of_inBounds ParamId.BiasVoltage v s hc (by simpa [catalog] using h1)
      (by simpa [catalog] using h3)
  have hp : (0 : ℚ) < 2 ^ 14 := by norm_num
  have hfl : (⌊v * 2 ^ 14⌋ : ℚ) ≤ v * 2 ^ 14 := Int.floor_le _
  have hge : ((2 ^ 14 : ℤ) : ℚ) ≤ ⌊v * 2 ^ 14⌋ := by
    have : (2 ^ 14 : ℤ) ≤ ⌊v * 2 ^ 14⌋ := by
      rw [Int.le_floor]
      push_cast
      nlinarith
    exact_mod_cast this
  refine ⟨hset, Dll.Get_after_Set _ v s hset, ⟨⌊v * 2 ^ 14⌋, Dll.stored_BiasVoltage v⟩,
    ?_, ?_, Dll.stored_within_precision _ v _ rfl, ?_⟩
  · rw [Dll.stored_BiasVoltage, le_div_iff₀ hp]
    push_cast at hge
    linarith
  · rw [Dll.stored_BiasVoltage, div_le_iff₀ hp]
    linarith
  · rintro ⟨k, hk⟩
    rw [Dll.stored_BiasVoltage, hk, div_mul_cancel₀ _ hp.ne', Int.floor_intCast]

/-- Witness of C18: 2.1 volts on the connected library is accepted and read back as
34406 / 2^14, within [1, 3]. -/
theorem BiasVoltage_is_quantized_witness :
    connectedDll.connected = true ∧ (1 : ℚ) ≤ 21 / 10 ∧ (21 / 10 : ℚ) ≤ 3
    ∧ (Dll.Set Link.Answered ParamId.BiasVoltage (21 / 10) connectedDll).1 = CmdStatus.Success
    ∧ 1 ≤ Dll.stored ParamId.BiasVoltage (21 / 10)
    ∧ Dll.stored ParamId.BiasVoltage (21 / 10) ≤ 3
    ∧ |Dll.stored ParamId.BiasVoltage (21 / 10) - 21 / 10| ≤ 1 / 2 ^ 14 :=
  ⟨rfl, by norm_num, by norm_num,
   (BiasVoltage_is_quantized (21 / 10) connectedDll rfl (by norm_num) (by norm_num)).1,
   (BiasVoltage_is_quantized (21 / 10) connectedDll rfl (by norm_num) (by norm_num)).2.2.2.1,
   (BiasVoltage_is_quantized (21 / 10) connectedDll rfl (by norm_num)
      (by norm_num)).2.2.2.2.1,
   (BiasVoltage_is_quantized (21 / 10) connectedDll rfl (by norm_num)
      (by norm_num)).2.2.2.2.2.1⟩

theorem ite_bit (v c : Int) (k : Nat) :
    (if bit v k = true then c else 0) = c * (v / 2 ^ k % 2) := by
  unfold bit
  have h := Int.emod_two_eq (v / 2 ^ k)
  by_cases hb : v / 2 ^ k % 2 = 1
  · simp [hb]
  · rcases h with h | h
    · simp [h]
    · exact absurd h hb

/-- The value of the eight flags of a field is the field's low byte. -/
theorem PortFlags.value_portFlags (h : ImageHeader) :
    h.portFlags.value = h.IODigitalPortStatus % 256 := by
  simp only [ImageHeader.portFlags, PortFlags.value, ite_bit]
  norm_num
  omega

theorem PortFlags.portFlags_value (f : PortFlags) :
    ({ blankHeader with IODigitalPortStatus := f.value } : ImageHeader).portFlags = f := by
  obtain ⟨a, b, c, d, e, g, i, j⟩ := f
  cases a <;> cases b <;> cases c <;> cases d <;> cases e <;> cases g <;> cases i <;>
    cases j <;> decide

/-- C19, as stated, fails: `wideHeader` is a value of `struct ImageHeader` (every field
within its declared type, `IODigitalPortStatus` being an `int16_t`) whose
`IODigitalPortStatus` is 256, outside 0..255; its eight port flags are those of the
header whose field is 0, so the flags do not determine the field. -/
theorem IODigitalPortStatus_counterexample :
    wideHeader.WellTyped
    ∧ wideHeader.IODigitalPortStatus = 256
    ∧ ¬ (0 ≤ wideHeader.IODigitalPortStatus ∧ wideHeader.IODigitalPortStatus ≤ 255)
    ∧ blankHeader.WellTyped
    ∧ wideHeader.portFlags = blankHeader.portFlags
    ∧ wideHeader.IODigitalPortStatus ≠ blankHeader.IODigitalPortStatus := by
  refine ⟨?_, rfl, by decide, ?_, by decide, by decide⟩
  · unfold ImageHeader.WellTyped; decide
  · unfold ImageHeader.WellTyped; decide

/-- C19, amended: `IODigitalPortStatus` is a 16-bit field whose bits 0 to 7 are
In1, In2, Out1 (alarm), Out2, In3, In4, Out3, Out4, read from eight distinct bit
positions; the eight flags are exactly the field's low byte, so they determine the
field's value if and only if it lies in 0..255; and each of the 256 combinations of
flags is recovered from the field value in 0..255 that has those bits set. -/
theorem IODigitalPortStatus_flags_are_low_byte (h : ImageHeader) :
    h.portFlags
        = { In1 := bit h.IODigitalPortStatus 0, In2 := bit h.IODigitalPortStatus 1,
            Out1 := bit h.IODigitalPortStatus 2, Out2 := bit h.IODigitalPortStatus 3,
            In3 := bit h.IODigitalPortStatus 4, In4 := bit h.IODigitalPortStatus 5,
            Out3 := bit h.IODigitalPortStatus 6, Out4 := bit h.IODigitalPortStatus 7 }
    ∧ h.portFlags.value = h.IODigitalPortStatus % 256
    ∧ ((0 ≤ h.IODigitalPortStatus ∧ h.IODigitalPortStatus ≤ 255)
        ↔ h.portFlags.value = h.IODigitalPortStatus)
    ∧ (∀ f : PortFlags,
        ({ blankHeader with IODigitalPortStatus := f.value } : ImageHeader).portFlags = f
        ∧ 0 ≤ f.value ∧ f.value ≤ 255) := by
  have hv := PortFlags.value_portFlags h
  refine ⟨rfl, hv, ?_, fun f => ⟨PortFlags.portFlags_value f, ?_, ?_⟩⟩
  · rw [hv]; omega
  · unfold PortFlags.value; split_ifs <;> norm_num
  · unfold PortFlags.value; split_ifs <;> norm_num

theorem Dll.Set_snd_of_inBounds (p : ParamId) (v : ℚ) (s : Dll) (hc : s.connected = true)
    (h1 : (catalog p).min ≤ v) (h2 : v ≤ (catalog p).max) :
    (Dll.Set Link.Answered p v s).2
      = { s with values := Function.update s.values p (Dll.stored p v) } := by
  simp [Dll.Set, Dll.transport_answered s hc, Dll.inBounds, h1, h2]

theorem Dll.Get_of_connected (p : ParamId) (s : Dll) (hc : s.connected = true) :
    Dll.Get Link.Answered p s = (CmdStatus.Success, some (s.values p)) := by
  simp [Dll.Get, Dll.transport_answered s hc]

/-- Two accepted `Set`s in a row, of `pmax` then of `pmin`: both values are kept. -/
theorem Dll.Set_pair (pmax pmin : ParamId) (a b : ℚ) (s : Dll) (hc : s.connected = true)
    (hne : pmax ≠ pmin) (hpa : (catalog pmax).precision = none)
    (hpb : (catalog pmin).precision = none)
    (ha1 : (catalog pmax).min ≤ a) (ha2 : a ≤ (catalog pmax).max)
    (hb1 : (catalog pmin).min ≤ b) (hb2 : b ≤ (catalog pmin).max) :
    (Dll.Set Link.Answered pmax a s).1 = CmdStatus.Success
    ∧ (Dll.Set Link.Answered pmin b (Dll.Set Link.Answered pmax a s).2).1 = CmdStatus.Success
    ∧ Dll.Get Link.Answered pmax
        (Dll.Set Link.Answered pmin b (Dll.Set Link.Answered pmax a s).2).2
        = (CmdStatus.Success, some a)
    ∧ Dll.Get Link.Answered pmin
        (Dll.Set Link.Answered pmin b (Dll.Set Link.Answered pmax a s).2).2
        = (CmdStatus.Success, some b) := by
  have hs1 := Dll.Set_snd_of_inBounds pmax a s hc ha1 ha2
  have hc1 : (Dll.Set Link.Answered pmax a s).2.connected = true := by rw [hs1]; exact hc
  have hs2 := Dll.Set_snd_of_inBounds pmin b _ hc1 hb1 hb2
  have hc2 : (Dll.Set Link.Answered pmin b (Dll.Set Link.Answered pmax a s).2).2.connected
      = true := by rw [hs2]; exact hc1
  refine ⟨Dll.Set_of_inBounds pmax a s hc ha1 ha2, Dll.Set_of_inBounds pmin b _ hc1 hb1 hb2,
    ?_, ?_⟩
  · rw [Dll.Get_of_connected _ _ hc2, hs2, hs1]
    simp [Function.update_noteq hne, Dll.stored_of_no_precision _ _ hpa]
  · rw [Dll.Get_of_connected _ _ hc2, hs2]
    simp [Dll.stored_of_no_precision _ _ hpb]

/-- C20: on a Connected library, answered `Set(MaxPower, 100)` followed by
`Set(MinPower, 9900)` both succeed, each value being inside its own documented
bounds, and the device then holds a maximum power of 100 below a minimum power of
9900; the same for `Set(PowerLimitMax, 1)` followed by `Set(PowerLimitMin, 9999)`. -/
theorem maximum_below_minimum_passes_bounds (s : Dll) (hc : s.connected = true) :
    ((Dll.Set Link.Answered ParamId.MaxPower 100 s).1 = CmdStatus.Success
      ∧ (Dll.Set Link.Answered ParamId.MinPower 9900
          (Dll.Set Link.Answered ParamId.MaxPower 100 s).2).1 = CmdStatus.Success
      ∧ Dll.Get Link.Answered ParamId.MaxPower
          (Dll.Set Link.Answered ParamId.MinPower 9900
            (Dll.Set Link.Answered ParamId.MaxPower 100 s).2).2
          = (CmdStatus.Success, some 100)
      ∧ Dll.Get Link.Answered ParamId.MinPower
          (Dll.Set Link.Answered ParamId.MinPower 9900
            (Dll.Set Link.Answered ParamId.MaxPower 100 s).2).2
          = (CmdStatus.Success, some 9900))
    ∧ ((Dll.Set Link.Answered ParamId.PowerLimitMax 1 s).1 = CmdStatus.Success
      ∧ (Dll.Set Link.Answered ParamId.PowerLimitMin 9999
          (Dll.Set Link.Answered ParamId.PowerLimitMax 1 s).2).1 = CmdStatus.Success
      ∧ Dll.Get Link.Answered ParamId.PowerLimitMax
          (Dll.Set Link.Answered ParamId.PowerLimitMin 9999
            (Dll.Set Link.Answered ParamId.PowerLimitMax 1 s).2).2
          = (CmdStatus.Success, some 1)
      ∧ Dll.Get Link.Answered ParamId.PowerLimitMin
          (Dll.Set Link.Answered ParamId.PowerLimitMin 9999
            (Dll.Set Link.Answered ParamId.PowerLimitMax 1 s).2).2
          = (CmdStatus.Success, some 9999))
    ∧ Dll.inBounds ParamId.MaxPower 100 = true ∧ Dll.inBounds ParamId.MinPower 9900 = true
    ∧ Dll.inBounds ParamId.PowerLimitMax 1 = true
    ∧ Dll.inBounds ParamId.PowerLimitMin 9999 = true
    ∧ (100 : ℚ) < 9900 ∧ (1 : ℚ) < 9999 := by
  refine ⟨Dll.Set_pair ParamId.MaxPower ParamId.MinPower 100 9900 s hc (by decide) rfl rfl
      (by norm_num [catalog]) (by norm_num [catalog]) (by norm_num [catalog])
      (by norm_num [catalog]),
    Dll.Set_pair ParamId.PowerLimitMax ParamId.PowerLimitMin 1 9999 s hc (by decide) rfl rfl
      (by norm_num [catalog]) (by norm_num [catalog]) (by norm_num [catalog])
      (by norm_num [catalog]),
    by norm_num [Dll.inBounds, catalog], by norm_num [Dll.inBounds, catalog],
    by norm_num [Dll.inBounds, catalog], by norm_num [Dll.inBounds, catalog],
    by norm_num, by norm_num⟩

/-- Witness of C20: the two pairs of `Set`s on the connected library. -/
theorem maximum_below_minimum_passes_bounds_witness :
    connectedDll.connected = true
    ∧ (Dll.Set Link.Answered ParamId.MinPower 9900
          (Dll.Set Link.Answered ParamId.MaxPower 100 connectedDll).2).1 = CmdStatus.Success
    ∧ Dll.Get Link.Answered ParamId.MaxPower
          (Dll.Set Link.Answered ParamId.MinPower 9900
            (Dll.Set Link.Answered ParamId.MaxPower 100 connectedDll).2).2
          = (CmdStatus.Success, some 100)
    ∧ Dll.Get Link.Answered ParamId.MinPower
          (Dll.Set Link.Answered ParamId.MinPower 9900
            (Dll.Set Link.Answered ParamId.MaxPower 100 connectedDll).2).2
          = (CmdStatus.Success, some 9900) :=
  ⟨rfl, (maximum_below_minimum_passes_bounds connectedDll rfl).1.2⟩

/-! ## The returned status and the global `connection_result` -/

/-- C21: the value `ConnectDevice` (respectively `DisconnectDevice`) returns is the
status of `ConnectCLAMIR` (respectively `DisconnectCLAMIR`) in that call and nothing
else: two runs that differ only in the prior value of `connection_result` return the
same value, and so do any two runs, over any libraries and states, in which the
device call gives the same status. -/
theorem returned_value_depends_on_device_status_only {D : Type} (dev : Device D)
    (w : World D) (c1 c2 : Int) :
    (ClamirFunctions.ConnectDevice dev { w with connection_result := c1 }).1
        = (ClamirFunctions.ConnectDevice dev { w with connection_result := c2 }).1
    ∧ (ClamirFunctions.DisconnectDevice dev { w with connection_result := c1 }).1
        = (ClamirFunctions.DisconnectDevice dev { w with connection_result := c2 }).1
    ∧ (∀ (E : Type) (dev2 : Device E) (w2 : World E),
        (dev.ConnectCLAMIR w.lIPAddress w.dll).1 = (dev2.ConnectCLAMIR w2.lIPAddress w2.dll).1 →
        (ClamirFunctions.ConnectDevice dev w).1 = (ClamirFunctions.ConnectDevice dev2 w2).1)
    ∧ (∀ (E : Type) (dev2 : Device E) (w2 : World E),
        (dev.DisconnectCLAMIR w.dll).1 = (dev2.DisconnectCLAMIR w2.dll).1 →
        (ClamirFunctions.DisconnectDevice dev w).1
          = (ClamirFunctions.DisconnectDevice dev2 w2).1) :=
  ⟨rfl, rfl, fun _ _ _ h => h, fun _ _ _ h => h⟩

/-- Witness of C21: at program start and in the state after a successful connect, the
next attempt having the same outcome (it fails to connect), `ConnectDevice` returns
the same value although `connection_result` is 1 in one state and 0 in the other. -/
theorem returned_value_depends_on_device_status_only_witness :
    (World.initial (Dll.initial [ConnectOutcome.ConnectFailed] [])).connection_result = 1
    ∧ (ClamirFunctions.ConnectDevice Dll.device
        (World.initial (Dll.initial [ConnectOutcome.Established,
          ConnectOutcome.ConnectFailed] []))).2.connection_result = 0
    ∧ (ClamirFunctions.ConnectDevice Dll.device
        (World.initial (Dll.initial [ConnectOutcome.ConnectFailed] []))).1
      = (ClamirFunctions.ConnectDevice Dll.device
          (ClamirFunctions.ConnectDevice Dll.device
            (World.initial (Dll.initial [ConnectOutcome.Established,
              ConnectOutcome.ConnectFailed] []))).2).1 :=
  ⟨rfl, rfl,
   (returned_value_depends_on_device_status_only Dll.device
      (World.initial (Dll.initial [ConnectOutcome.ConnectFailed] [])) 0 0).2.2.1 Dll Dll.device
      (ClamirFunctions.ConnectDevice Dll.device
        (World.initial (Dll.initial [ConnectOutcome.Established,
          ConnectOutcome.ConnectFailed] []))).2 rfl⟩

theorem step_connection_result {D : Type} (dev : Device D) (w : World D) (c : Call) :
    (step dev w c).2.connection_result = (step dev w c).1 := by
  cases c <;> rfl

theorem run_connection_result {D : Type} (dev : Device D) (cs : List Call) :
    ∀ w : World D, (run dev w cs).2.connection_result
      = (lastStatus (run dev w cs).1).getD w.connection_result := by
  induction cs with
  | nil => intro w; rfl
  | cons c cs ih =>
    intro w
    simp only [run, lastStatus]
    rw [ih, step_connection_result]
    cases lastStatus (run dev (step dev w c).2 cs).1 <;> rfl

/-- C22: before the first call `connection_result` is 1, none of the documented statuses
0, -1, -2; after any sequence of `ConnectDevice` / `DisconnectDevice` calls it is
the value the last call returned (and its prior value if no call was made); so it
is 0 after a `ConnectDevice` that returned 0 and after a `DisconnectDevice` that
returned 0 alike. -/
theorem connection_result_is_last_returned_value {D : Type} (dev : Device D) (w : World D)
    (cs : List Call) :
    (World.initial w.dll).connection_result = 1
    ∧ (World.initial w.dll).connection_result ≠ 0
    ∧ (World.initial w.dll).connection_result ≠ -1
    ∧ (World.initial w.dll).connection_result ≠ -2
    ∧ (run dev w cs).2.connection_result
        = (lastStatus (run dev w cs).1).getD w.connection_result
    ∧ (step dev w Call.ConnectDevice).2.connection_result = (step dev w Call.ConnectDevice).1
    ∧ (step dev w Call.DisconnectDevice).2.connection_result
        = (step dev w Call.DisconnectDevice).1
    ∧ ((ClamirFunctions.ConnectDevice dev w).1 = 0 →
        (ClamirFunctions.ConnectDevice dev w).2.connection_result = 0)
    ∧ ((ClamirFunctions.DisconnectDevice dev w).1 = 0 →
        (ClamirFunctions.DisconnectDevice dev w).2.connection_result = 0) := by
  have h1 : (World.initial w.dll).connection_result = 1 := rfl
  refine ⟨h1, ?_, ?_, ?_, run_connection_result dev cs w, rfl, rfl, fun h => h, fun h => h⟩
  · rw [h1]; decide
  · rw [h1]; decide
  · rw [h1]; decide

/-- Witness of C22: over the modelled library, from program start, `connection_result`
is 0 after a successful connect and 0 again after the successful disconnect that
follows, and -2 after a failed connect. -/
theorem connection_result_is_last_returned_value_witness :
    (ClamirFunctions.ConnectDevice Dll.device
        (World.initial (Dll.initial [] []))).2.connection_result = 0
    ∧ (ClamirFunctions.DisconnectDevice Dll.device connectedWorld).2.connection_result = 0
    ∧ (run Dll.device (World.initial (Dll.initial [ConnectOutcome.ConnectFailed] []))
        [Call.DisconnectDevice, Call.ConnectDevice]).2.connection_result
        = (lastStatus (run Dll.device
            (World.initial (Dll.initial [ConnectOutcome.ConnectFailed] []))
            [Call.DisconnectDevice, Call.ConnectDevice]).1).getD 1
    ∧ lastStatus (run Dll.device
        (World.initial (Dll.initial [ConnectOutcome.ConnectFailed] []))
        [Call.DisconnectDevice, Call.ConnectDevice]).1 = some (-2) :=
  ⟨(connection_result_is_last_returned_value Dll.device
      (World.initial (Dll.initial [] [])) []).2.2.2.2.2.2.2.1 rfl,
   (connection_result_is_last_returned_value Dll.device connectedWorld
      []).2.2.2.2.2.2.2.2 rfl,
   (connection_result_is_last_returned_value Dll.device
      (World.initial (Dll.initial [ConnectOutcome.ConnectFailed] []))
      [Call.DisconnectDevice, Call.ConnectDevice]).2.2.2.2.1,
   rfl⟩

/-! ## `Add` and `Subtract` -/

theorem wrap32_of_IsInt32 (x : Int) (h : IsInt32 x) : wrap32 x = x := by
  unfold IsInt32 at h
  unfold wrap32
  norm_num at h ⊢
  omega

theorem wrap32_IsInt32 (x : Int) : IsInt32 (wrap32 x) := by
  unfold IsInt32 wrap32
  norm_num
  omega

theorem wrap32_congruent (x : Int) : (wrap32 x - x) % 2 ^ 32 = 0 := by
  unfold wrap32
  norm_num
  omega

/-- C26: in 32-bit two's complement, for every `int` value a and every b (so for all
`int` values a and b), `Subtract(Add(a, b), b)` is a and `Add(Subtract(a, b), b)`
is a. -/
theorem Subtract_undoes_Add (a b : Int) (ha : IsInt32 a) :
    ClamirFunctions.Subtract (ClamirFunctions.Add a b) b = a
    ∧ ClamirFunctions.Add (ClamirFunctions.Subtract a b) b = a := by
  unfold IsInt32 at ha
  unfold ClamirFunctions.Subtract ClamirFunctions.Add wrap32
  norm_num at ha ⊢
  constructor <;> omega

/-- Witness of C26: the largest `int` and 1, where the sum wraps. -/
theorem Subtract_undoes_Add_witness :
    IsInt32 2147483647 ∧ IsInt32 1
    ∧ ClamirFunctions.Add 2147483647 1 = -2147483648
    ∧ ClamirFunctions.Subtract (ClamirFunctions.Add 2147483647 1) 1 = 2147483647
    ∧ ClamirFunctions.Add (ClamirFunctions.Subtract 2147483647 1) 1 = 2147483647 :=
  ⟨by decide, by decide, by decide,
   (Subtract_undoes_Add 2147483647 1 (by decide)).1,
   (Subtract_undoes_Add 2147483647 1 (by decide)).2⟩

/-- C27: for all `int` values a and b, when the exact sum (respectively difference) is
an `int` value, `Add(a, b)` is the sum and `Subtract(a, b)` the difference; in every
case the result is the `int` value congruent to the exact result modulo 2^32, which
beyond the range is the exact result minus 2^32 (above) or plus 2^32 (below). -/
theorem Add_Subtract_exact_or_wrapped (a b : Int) (ha : IsInt32 a) (hb : IsInt32 b) :
    (IsInt32 (a + b) → ClamirFunctions.Add a b = a + b)
    ∧ (IsInt32 (a - b) → ClamirFunctions.Subtract a b = a - b)
    ∧ IsInt32 (ClamirFunctions.Add a b)
    ∧ (ClamirFunctions.Add a b - (a + b)) % 2 ^ 32 = 0
    ∧ IsInt32 (ClamirFunctions.Subtract a b)
    ∧ (ClamirFunctions.Subtract a b - (a - b)) % 2 ^ 32 = 0
    ∧ (2 ^ 31 ≤ a + b → ClamirFunctions.Add a b = a + b - 2 ^ 32)
    ∧ (a + b < -2 ^ 31 → ClamirFunctions.Add a b = a + b + 2 ^ 32)
    ∧ (2 ^ 31 ≤ a - b → ClamirFunctions.Subtract a b = a - b - 2 ^ 32)
    ∧ (a - b < -2 ^ 31 → ClamirFunctions.Subtract a b = a - b + 2 ^ 32) := by
  refine ⟨wrap32_of_IsInt32 _, wrap32_of_IsInt32 _, wrap32_IsInt32 _, wrap32_congruent _,
    wrap32_IsInt32 _, wrap32_congruent _, ?_, ?_, ?_, ?_⟩ <;>
  · unfold IsInt32 at ha hb
    simp only [ClamirFunctions.Add, ClamirFunctions.Subtract, wrap32]
    norm_num at ha hb ⊢
    omega

/-- Witness of C27: 2 + 3 is exact; the largest `int` plus 1 wraps to the smallest,
and the smallest minus 1 wraps to the largest. -/
theorem Add_Subtract_exact_or_wrapped_witness :
    IsInt32 2 ∧ IsInt32 3 ∧ IsInt32 (2 + 3) ∧ ClamirFunctions.Add 2 3 = 2 + 3
    ∧ IsInt32 2147483647 ∧ IsInt32 1 ∧ (2 : Int) ^ 31 ≤ 2147483647 + 1
    ∧ ClamirFunctions.Add 2147483647 1 = 2147483647 + 1 - 2 ^ 32
    ∧ IsInt32 (-2147483648) ∧ (-2147483648 : Int) - 1 < -2 ^ 31
    ∧ ClamirFunctions.Subtract (-2147483648) 1 = -2147483648 - 1 + 2 ^ 32 :=
  ⟨by decide, by decide, by decide,
   (Add_Subtract_exact_or_wrapped 2 3 (by decide) (by decide)).1 (by decide),
   by decide, by decide, by decide,
   (Add_Subtract_exact_or_wrapped 2147483647 1 (by decide) (by decide)).2.2.2.2.2.2.1
     (by decide),
   by decide, by decide,
   (Add_Subtract_exact_or_wrapped (-2147483648) 1 (by decide)
     (by decide)).2.2.2.2.2.2.2.2.2 (by decide)⟩

/-! ## Documented defaults, bounds and return codes -/

theorem catalog_default_inBounds (p : ParamId) :
    (catalog p).min ≤ (catalog p).default ∧ (catalog p).default ≤ (catalog p).max := by
  cases p <;> norm_num [catalog]

theorem Dll.stored_default (p : ParamId) :
    Dll.stored p (catalog p).default = (catalog p).default := by
  cases p <;> simp [Dll.stored, catalog] <;> norm_num

/-- C23: every documented default is a valid configuration: each default of the catalog
lies inside its parameter's documented [min, max] (and is kept unchanged by the
parameter's precision); the default ROI lies inside the coordinate bounds with
X1 < X2 and Y1 < Y2; the default auto shutter configuration has exactly one of the
temperature drift and timer flags set; the paired defaults are ordered; and on a
Connected library each default is accepted by an answered `Set`. -/
theorem documented_defaults_are_valid :
    (∀ p : ParamId, (catalog p).min ≤ (catalog p).default
        ∧ (catalog p).default ≤ (catalog p).max
        ∧ Dll.stored p (catalog p).default = (catalog p).default)
    ∧ (ROILowBounds.1 ≤ ROIDefault.1 ∧ ROIDefault.1 ≤ ROILowBounds.2
        ∧ ROILowBounds.1 ≤ ROIDefault.2.1 ∧ ROIDefault.2.1 ≤ ROILowBounds.2
        ∧ ROIHighBounds.1 ≤ ROIDefault.2.2.1 ∧ ROIDefault.2.2.1 ≤ ROIHighBounds.2
        ∧ ROIHighBounds.1 ≤ ROIDefault.2.2.2 ∧ ROIDefault.2.2.2 ≤ ROIHighBounds.2
        ∧ ROIDefault.1 < ROIDefault.2.2.1 ∧ ROIDefault.2.1 < ROIDefault.2.2.2)
    ∧ ((AutoShutterDefault.2.2.1 = true ∧ AutoShutterDefault.2.2.2 = false)
        ∨ (AutoShutterDefault.2.2.1 = false ∧ AutoShutterDefault.2.2.2 = true))
    ∧ ((catalog ParamId.MaxPower).default = 1500 ∧ (catalog ParamId.MinPower).default = 500
        ∧ (catalog ParamId.MinPower).default < (catalog ParamId.MaxPower).default)
    ∧ ((catalog ParamId.PowerLimitMax).default = 1500
        ∧ (catalog ParamId.PowerLimitMin).default = 500
        ∧ (catalog ParamId.PowerLimitMin).default < (catalog ParamId.PowerLimitMax).default)
    ∧ ((catalog ParamId.AlarmMax).default = 5 ∧ (catalog ParamId.AlarmMin).default = 1
        ∧ (catalog ParamId.AlarmMin).default < (catalog ParamId.AlarmMax).default)
    ∧ ((catalog ParamId.ReferenceTrackEnd).default = 3
        ∧ (catalog ParamId.ReferenceTrackStart).default = 0
        ∧ (catalog ParamId.ReferenceTrackStart).default
            ≤ (catalog ParamId.ReferenceTrackEnd).default)
    ∧ (∀ (os : List ConnectOutcome) (ds : List DisconnectOutcome),
        (Dll.initial os ds).roi = ROIDefault
        ∧ (Dll.initial os ds).autoShutter = AutoShutterDefault
        ∧ ∀ p, (Dll.initial os ds).values p = (catalog p).default)
    ∧ (∀ s : Dll, s.connected = true →
        (∀ p, (Dll.Set Link.Answered p (catalog p).default s).1 = CmdStatus.Success)
        ∧ (Dll.ROICoordinatesSet Link.Answered ROIDefault.1 ROIDefault.2.1 ROIDefault.2.2.1
            ROIDefault.2.2.2 s).1 = CmdStatus.Success
        ∧ (Dll.AutoShutterConfigurationSet Link.Answered AutoShutterDefault.1
            AutoShutterDefault.2.1 AutoShutterDefault.2.2.1 AutoShutterDefault.2.2.2 s).1
            = CmdStatus.Success) := by
  refine ⟨fun p => ⟨(catalog_default_inBounds p).1, (catalog_default_inBounds p).2,
      Dll.stored_default p⟩, by decide, by decide, ?_, ?_, ?_, ?_,
    fun _ _ => ⟨rfl, rfl, fun _ => rfl⟩, ?_⟩
  · norm_num [catalog]
  · norm_num [catalog]
  · norm_num [catalog]
  · norm_num [catalog]
  · intro s hc
    refine ⟨fun p => Dll.Set_of_inBounds p _ s hc (catalog_default_inBounds p).1
      (catalog_default_inBounds p).2, ?_, ?_⟩
    · simp [Dll.ROICoordinatesSet, Dll.transport_answered s hc, ROIDefault]
    · simp [Dll.AutoShutterConfigurationSet, Dll.transport_answered s hc, AutoShutterDefault]

/-- Witness of C23: on the connected library the documented defaults of KI, of the ROI
and of the auto shutter configuration are accepted. -/
theorem documented_defaults_are_valid_witness :
    connectedDll.connected = true
    ∧ (Dll.Set Link.Answered ParamId.KI (catalog ParamId.KI).default connectedDll).1
        = CmdStatus.Success
    ∧ (Dll.ROICoordinatesSet Link.Answered ROIDefault.1 ROIDefault.2.1 ROIDefault.2.2.1
        ROIDefault.2.2.2 connectedDll).1 = CmdStatus.Success
    ∧ (Dll.AutoShutterConfigurationSet Link.Answered AutoShutterDefault.1
        AutoShutterDefault.2.1 AutoShutterDefault.2.2.1 AutoShutterDefault.2.2.2
        connectedDll).1 = CmdStatus.Success :=
  ⟨rfl,
   (documented_defaults_are_valid.2.2.2.2.2.2.2.2 connectedDll rfl).1 ParamId.KI,
   (documented_defaults_are_valid.2.2.2.2.2.2.2.2 connectedDll rfl).2.1,
   (documented_defaults_are_valid.2.2.2.2.2.2.2.2 connectedDll rfl).2.2⟩

/-- C24: for every parameter of the catalog whose `...Set` function takes an `int16_t`,
the documented minimum and maximum are integers with minimum < maximum, and both
minimum - 1 and maximum + 1 are `int16_t` values; the same holds for the bounds of
the four `int16_t` coordinates of `ROICoordinatesSet`. -/
theorem int16_probes_are_representable (p : ParamId)
    (h : (catalog p).argType = ArgType.int16_t) :
    (catalog p).min < (catalog p).max
    ∧ (catalog p).min.den = 1 ∧ (catalog p).max.den = 1
    ∧ IsInt16 ((catalog p).min.num - 1) ∧ IsInt16 ((catalog p).max.num + 1)
    ∧ (-32768 : ℚ) ≤ (catalog p).min - 1 ∧ (catalog p).max + 1 ≤ 32767
    ∧ (ROILowBounds.1 < ROILowBounds.2 ∧ IsInt16 (ROILowBounds.1 - 1)
        ∧ IsInt16 (ROILowBounds.2 + 1))
    ∧ (ROIHighBounds.1 < ROIHighBounds.2 ∧ IsInt16 (ROIHighBounds.1 - 1)
        ∧ IsInt16 (ROIHighBounds.2 + 1)) := by
  have hroi : (ROILowBounds.1 < ROILowBounds.2 ∧ IsInt16 (ROILowBounds.1 - 1)
        ∧ IsInt16 (ROILowBounds.2 + 1))
      ∧ (ROIHighBounds.1 < ROIHighBounds.2 ∧ IsInt16 (ROIHighBounds.1 - 1)
        ∧ IsInt16 (ROIHighBounds.2 + 1)) := by decide
  cases p <;> first
    | (exact absurd h (by decide))
    | (refine ⟨by norm_num [catalog], by simp [catalog], by simp [catalog], ?_, ?_,
        by norm_num [catalog], by norm_num [catalog], hroi.1, hroi.2⟩ <;>
       simp [catalog, IsInt16])

/-- Witness of C24: MinPower, whose range [-30000, 9900] has the lowest minimum. -/
theorem int16_probes_are_representable_witness :
    (catalog ParamId.MinPower).argType = ArgType.int16_t
    ∧ (catalog ParamId.MinPower).min < (catalog ParamId.MinPower).max
    ∧ IsInt16 ((catalog ParamId.MinPower).min.num - 1)
    ∧ IsInt16 ((catalog ParamId.MinPower).max.num + 1) :=
  ⟨rfl, (int16_probes_are_representable ParamId.MinPower rfl).1,
   (int16_probes_are_representable ParamId.MinPower rfl).2.2.2.1,
   (int16_probes_are_representable ParamId.MinPower rfl).2.2.2.2.1⟩

/-- C25, evaluated on the header: of its 93 accessors, all but two follow the rule that
-3 is listed exactly by the `...Set` functions documenting bounds; `RoundROIGet`, a
`...Get`, lists -3, and `EnableROISet`, a `...Set` documenting bounds, does not, while
its siblings `RoundROISet` and `EnableAlarmSet` do. -/
theorem documented_minus_three_exceptions :
    accessorDocs.length = 93
    ∧ accessorDocs.filter (fun a => !a.followsRule)
        = [AccessorDoc.mk "RoundROIGet" 543 AccessorKind.Get false returns0123,
           AccessorDoc.mk "EnableROISet" 561 AccessorKind.Set true returns012]
    ∧ (-3 : Int) ∈ returns0123 ∧ (-3 : Int) ∉ returns012
    ∧ AccessorDoc.mk "RoundROISet" 533 AccessorKind.Set true returns0123 ∈ accessorDocs
    ∧ AccessorDoc.mk "EnableAlarmSet" 820 AccessorKind.Set true returns0123 ∈ accessorDocs := by
  refine ⟨rfl, ?_, by decide, by decide, ?_, ?_⟩
  · decide
  · decide
  · decide

end Clamir
